import Mathlib

/-!
Verification development for the gpsclock repository: a shallow embedding of
the NMEA sentence parser `src/micropyGPS.py` (class `MicropyGPS`) and of the
geodetic accessors of `src/gps_reader.py` (class `GPSReader`), together with
theorems settling the specification claims about them.

Modelling conventions:
* Python strings are lists of character code points (`PStr := List Nat`);
  `update` receives the code point of the fed character (`ord(new_char)`).
* Python `float` values are modelled as exact unnormalised rationals
  (`PyFloat`, an integer numerator/denominator pair); every operation the code
  performs keeps the denominator positive.  Python float `==`/`!=`/`<` are
  modelled by cross-multiplication on the exact values (`PyFloat.beq` etc.);
  IEEE rounding is idealised away, which the spec's own "within floating
  tolerance" phrasing licenses.
* Fallible Python code is explicit: `int()` / `float()` are `Option`-valued
  parsers (a `none` models `ValueError`); list indexing out of range is the
  single uncaught exception the code can raise and is modelled by
  `PyErr.indexError`.  Because Python mutates `self` before an exception
  propagates, effectful functions return `Except PyErr α × GPSState`, i.e.
  the post-mutation state accompanies the error.
* The wall-clock bookkeeping (`fix_time`, `new_fix_time`, `time_since_fix`)
  and file logging (`log_en` is `False` throughout and never enabled here)
  read the real-time clock / filesystem and are omitted from the state; no
  claim mentions them.
* `int()` / `float()` are modelled with optional surrounding ASCII
  whitespace, an optional sign, and (for `float`) fraction and exponent
  parts; Python's underscore digit separators and the `inf`/`nan` spellings
  are not modelled (no claim depends on them).
-/

/-- Python strings, as lists of character code points. -/
abbrev PStr := List Nat

/-- Character codes of a Lean string literal, for writing concrete inputs. -/
def cs (s : String) : PStr := s.data.map Char.toNat

/-- The only exception the parser can surface: Python `IndexError` from
indexing `gps_segments` past its length (every `ValueError` raised by
`int()`/`float()` is caught by the decoders). -/
inductive PyErr where
  | indexError
deriving DecidableEq, Repr

/-- Exact unnormalised rational, modelling a Python `float` value. -/
structure PyFloat where
  num : Int
  den : Int
deriving DecidableEq, Repr

namespace PyFloat

/-- Integer literal as a float (`float(n)` / implicit int-to-float). -/
def ofInt (n : Int) : PyFloat := ⟨n, 1⟩

def zero : PyFloat := ⟨0, 1⟩

def add (a b : PyFloat) : PyFloat := ⟨a.num * b.den + b.num * a.den, a.den * b.den⟩

def neg (a : PyFloat) : PyFloat := ⟨-a.num, a.den⟩

def sub (a b : PyFloat) : PyFloat := add a (neg b)

def mul (a b : PyFloat) : PyFloat := ⟨a.num * b.num, a.den * b.den⟩

/-- Division; the result's denominator is kept positive when the divisor is
nonzero (division by zero, which Python would raise on, does not occur on
the paths the claims touch). -/
def div (a b : PyFloat) : PyFloat :=
  let n := a.num * b.den
  let d := a.den * b.num
  if d < 0 then ⟨-n, -d⟩ else ⟨n, d⟩

instance : Add PyFloat := ⟨add⟩
instance : Sub PyFloat := ⟨sub⟩
instance : Mul PyFloat := ⟨mul⟩
instance : Neg PyFloat := ⟨neg⟩
instance : Div PyFloat := ⟨div⟩

/-- Python float `==` on the exact values (cross multiplication; both
denominators are positive for every value the code compares). -/
def beq (a b : PyFloat) : Bool := a.num * b.den == b.num * a.den

/-- Python float `<` on the exact values (denominators positive). -/
def blt (a b : PyFloat) : Bool := a.num * b.den < b.num * a.den

/-- Python float `<=` on the exact values (denominators positive). -/
def ble (a b : PyFloat) : Bool := a.num * b.den ≤ b.num * a.den

/-- Python `int(x)` on a float: truncation toward zero. -/
def trunc (a : PyFloat) : Int :=
  if (a.num < 0) = (a.den < 0) then ((a.num.natAbs / a.den.natAbs : Nat) : Int)
  else -((a.num.natAbs / a.den.natAbs : Nat) : Int)

/-- The exact rational value, for stating theorems. -/
def val (a : PyFloat) : ℚ := (a.num : ℚ) / (a.den : ℚ)

end PyFloat

/-- ASCII whitespace accepted by Python `int()`/`float()`. -/
def isPySpace (c : Nat) : Bool := c == 32 || (9 ≤ c && c ≤ 13)

/-- Strip leading and trailing whitespace. -/
def stripWs (l : PStr) : PStr :=
  ((l.dropWhile isPySpace).reverse.dropWhile isPySpace).reverse

def digit? (c : Nat) : Option Nat :=
  if 48 ≤ c && c ≤ 57 then some (c - 48) else none

/-- Value of a nonempty all-decimal-digit string. -/
def digitsVal? (l : PStr) : Option Nat :=
  match l with
  | [] => none
  | _ => l.foldl (fun acc c => acc.bind fun a => (digit? c).map fun d => a * 10 + d) (some 0)

/-- Python `int(s)`: optional whitespace, optional sign, decimal digits. -/
def pyInt (l : PStr) : Option Int :=
  match stripWs l with
  | 43 :: r => (digitsVal? r).map Int.ofNat
  | 45 :: r => (digitsVal? r).map fun n => -(n : Int)
  | r => (digitsVal? r).map Int.ofNat

def hexDigit? (c : Nat) : Option Nat :=
  if 48 ≤ c && c ≤ 57 then some (c - 48)
  else if 97 ≤ c && c ≤ 102 then some (c - 87)
  else if 65 ≤ c && c ≤ 70 then some (c - 55)
  else none

/-- Value of a nonempty all-hex-digit string. -/
def hexVal? (l : PStr) : Option Nat :=
  match l with
  | [] => none
  | _ => l.foldl (fun acc c => acc.bind fun a => (hexDigit? c).map fun d => a * 16 + d) (some 0)

/-- Unsigned part of Python `int(s, 16)`: optional `0x`/`0X` prefix, then
hex digits. -/
def pyHexCore (r : PStr) : Option Nat :=
  match r with
  | 48 :: 120 :: rest => hexVal? rest
  | 48 :: 88 :: rest => hexVal? rest
  | _ => hexVal? r

/-- Python `int(s, 16)`: optional whitespace, sign, optional `0x` prefix,
hex digits. -/
def pyIntBase16 (l : PStr) : Option Int :=
  match stripWs l with
  | 43 :: r => (pyHexCore r).map Int.ofNat
  | 45 :: r => (pyHexCore r).map fun n => -(n : Int)
  | r => (pyHexCore r).map Int.ofNat

/-- Unsigned part of Python `float(s)`: `digits [. digits] [exp]` or
`. digits [exp]`, exponent `e`/`E` with optional sign. -/
def pyUFloat (r : PStr) : Option PyFloat :=
  let intPart := r.takeWhile fun c => (digit? c).isSome
  let rest := r.dropWhile fun c => (digit? c).isSome
  let withExp : PStr → PyFloat → Option PyFloat := fun rest3 base =>
    match rest3 with
    | [] => some base
    | e :: r4 =>
      if e == 101 || e == 69 then
        let (sgn, digs) : Bool × PStr :=
          match r4 with
          | 43 :: r5 => (false, r5)
          | 45 :: r5 => (true, r5)
          | r5 => (false, r5)
        match digitsVal? digs with
        | some ex =>
          if sgn then some ⟨base.num, base.den * (10 ^ ex : Nat)⟩
          else some ⟨base.num * (10 ^ ex : Nat), base.den⟩
        | none => none
      else none
  match rest with
  | 46 :: rest2 =>
    let fracPart := rest2.takeWhile fun c => (digit? c).isSome
    let rest3 := rest2.dropWhile fun c => (digit? c).isSome
    if intPart = [] && fracPart = [] then none
    else
      match digitsVal? (intPart ++ fracPart) with
      | some m => withExp rest3 ⟨(m : Int), ((10 ^ fracPart.length : Nat) : Int)⟩
      | none =>
        -- `intPart ++ fracPart` is all digits; it is empty only in the
        -- guarded case above, so this branch needs a value: mirror `none`.
        if intPart = [] && fracPart = [] then none else withExp rest3 ⟨0, 1⟩
  | _ =>
    match digitsVal? intPart with
    | some m => withExp rest ⟨(m : Int), 1⟩
    | none => none

/-- Python `float(s)`. -/
def pyFloat (l : PStr) : Option PyFloat :=
  match stripWs l with
  | 43 :: r => pyUFloat r
  | 45 :: r => (pyUFloat r).map PyFloat.neg
  | r => pyUFloat r

/-- The mutable state of a `MicropyGPS` object (`__init__`), minus the
wall-clock `fix_time` and the file-logging handles (see module comment).
`latitude`/`longitude` model the raw `_latitude`/`_longitude` fields. -/
structure GPSState where
  sentence_active : Bool
  active_segment : Nat
  process_crc : Bool
  gps_segments : List PStr
  crc_xor : Nat
  char_count : Nat
  crc_fails : Nat
  clean_sentences : Nat
  parsed_sentences : Nat
  timestamp : Int × Int × PyFloat
  date : Int × Int × Int
  local_offset : Int
  latitude : Int × PyFloat × PStr
  longitude : Int × PyFloat × PStr
  speed : PyFloat × PyFloat × PyFloat
  course : PyFloat
  altitude : PyFloat
  geoid_height : PyFloat
  satellites_in_view : Int
  satellites_in_use : Int
  satellites_used : List Int
  last_sv_sentence : Int
  total_sv_sentences : Int
  satellite_data : List (Int × (Option Int × Option Int × Option Int))
  hdop : PyFloat
  pdop : PyFloat
  vdop : PyFloat
  valid : Bool
  fix_stat : Int
  fix_type : Int
deriving DecidableEq, Repr

/-- `MicropyGPS.__init__(local_offset)` (the `location_formatting` argument
only affects the display accessors, which no claim touches). -/
def initState (off : Int) : GPSState :=
  { sentence_active := false
    active_segment := 0
    process_crc := false
    gps_segments := []
    crc_xor := 0
    char_count := 0
    crc_fails := 0
    clean_sentences := 0
    parsed_sentences := 0
    timestamp := (0, 0, PyFloat.zero)
    date := (0, 0, 0)
    local_offset := off
    latitude := (0, PyFloat.zero, cs "N")
    longitude := (0, PyFloat.zero, cs "W")
    speed := (PyFloat.zero, PyFloat.zero, PyFloat.zero)
    course := PyFloat.zero
    altitude := PyFloat.zero
    geoid_height := PyFloat.zero
    satellites_in_view := 0
    satellites_in_use := 0
    satellites_used := []
    last_sv_sentence := 0
    total_sv_sentences := 0
    satellite_data := []
    hdop := PyFloat.zero
    pdop := PyFloat.zero
    vdop := PyFloat.zero
    valid := false
    fix_stat := 0
    fix_type := 1 }

/-- The class constant `__HEMISPHERES = ('N', 'S', 'E', 'W')`. -/
def HEMISPHERES : List PStr := [cs "N", cs "S", cs "E", cs "W"]

/-- Result of a field decoder: Python `return True/False`, or an uncaught
`IndexError`; the accompanying state keeps any writes made before failing. -/
abbrev DecodeRes := Except PyErr Bool × GPSState

/-- `MicropyGPS.gprmc` (RMC decoder), translated branch for branch; the
`new_fix_time()` wall-clock call is omitted (see module comment). -/
def gprmc (s : GPSState) : DecodeRes :=
  -- UTC Timestamp (`try: ... except ValueError: return False`)
  match s.gps_segments.get? 1 with
  | none => (.error .indexError, s)
  | some utc =>
    let tsOpt : Option (Int × Int × PyFloat) :=
      if utc ≠ [] then
        match pyInt (utc.take 2), pyInt ((utc.drop 2).take 2), pyFloat (utc.drop 4) with
        | some h, some m, some sec => some ((h + s.local_offset) % 24, m, sec)
        | _, _, _ => none
      else some (0, 0, PyFloat.zero)
    match tsOpt with
    | none => (.ok false, s)
    | some ts =>
      let s := { s with timestamp := ts }
      -- Date stamp
      match s.gps_segments.get? 9 with
      | none => (.error .indexError, s)
      | some dstr =>
        let dOpt : Option (Int × Int × Int) :=
          if dstr ≠ [] then
            match pyInt (dstr.take 2), pyInt ((dstr.drop 2).take 2),
                  pyInt ((dstr.drop 4).take 2) with
            | some d, some m, some y => some (d, m, y)
            | _, _, _ => none
          else some (0, 0, 0)
        match dOpt with
        | none => (.ok false, s)
        | some dt =>
          let s := { s with date := dt }
          -- Check Receiver Data Valid Flag
          match s.gps_segments.get? 2 with
          | none => (.error .indexError, s)
          | some vflag =>
            if vflag = cs "A" then
              -- Longitude / Latitude
              match s.gps_segments.get? 3 with
              | none => (.error .indexError, s)
              | some l3 =>
                match pyInt (l3.take 2) with
                | none => (.ok false, s)
                | some lat_degs =>
                  match pyFloat (l3.drop 2) with
                  | none => (.ok false, s)
                  | some lat_mins =>
                    match s.gps_segments.get? 4 with
                    | none => (.error .indexError, s)
                    | some lat_hemi =>
                      match s.gps_segments.get? 5 with
                      | none => (.error .indexError, s)
                      | some l5 =>
                        match pyInt (l5.take 3) with
                        | none => (.ok false, s)
                        | some lon_degs =>
                          match pyFloat (l5.drop 3) with
                          | none => (.ok false, s)
                          | some lon_mins =>
                            match s.gps_segments.get? 6 with
                            | none => (.error .indexError, s)
                            | some lon_hemi =>
                              if lat_hemi ∉ HEMISPHERES then (.ok false, s)
                              else if lon_hemi ∉ HEMISPHERES then (.ok false, s)
                              else
                                -- Speed
                                match s.gps_segments.get? 7 with
                                | none => (.error .indexError, s)
                                | some s7 =>
                                  match pyFloat s7 with
                                  | none => (.ok false, s)
                                  | some spd =>
                                    -- Course
                                    match s.gps_segments.get? 8 with
                                    | none => (.error .indexError, s)
                                    | some s8 =>
                                      let crsOpt : Option PyFloat :=
                                        if s8 ≠ [] then pyFloat s8
                                        else some PyFloat.zero
                                      match crsOpt with
                                      | none => (.ok false, s)
                                      | some crs =>
                                        (.ok true,
                                          { s with
                                            latitude := (lat_degs, lat_mins, lat_hemi)
                                            longitude := (lon_degs, lon_mins, lon_hemi)
                                            speed := (spd, spd * ⟨1151, 1000⟩, spd * ⟨1852, 1000⟩)
                                            course := crs
                                            valid := true })
            else
              (.ok true,
                { s with
                  latitude := (0, PyFloat.zero, cs "N")
                  longitude := (0, PyFloat.zero, cs "W")
                  speed := (PyFloat.zero, PyFloat.zero, PyFloat.zero)
                  course := PyFloat.zero
                  valid := false })

/-- `MicropyGPS.gpgll` (GLL decoder). -/
def gpgll (s : GPSState) : DecodeRes :=
  match s.gps_segments.get? 5 with
  | none => (.error .indexError, s)
  | some utc =>
    let tsOpt : Option (Int × Int × PyFloat) :=
      if utc ≠ [] then
        match pyInt (utc.take 2), pyInt ((utc.drop 2).take 2), pyFloat (utc.drop 4) with
        | some h, some m, some sec => some ((h + s.local_offset) % 24, m, sec)
        | _, _, _ => none
      else some (0, 0, PyFloat.zero)
    match tsOpt with
    | none => (.ok false, s)
    | some ts =>
      let s := { s with timestamp := ts }
      match s.gps_segments.get? 6 with
      | none => (.error .indexError, s)
      | some vflag =>
        if vflag = cs "A" then
          match s.gps_segments.get? 1 with
          | none => (.error .indexError, s)
          | some l1 =>
            match pyInt (l1.take 2) with
            | none => (.ok false, s)
            | some lat_degs =>
              match pyFloat (l1.drop 2) with
              | none => (.ok false, s)
              | some lat_mins =>
                match s.gps_segments.get? 2 with
                | none => (.error .indexError, s)
                | some lat_hemi =>
                  match s.gps_segments.get? 3 with
                  | none => (.error .indexError, s)
                  | some l3 =>
                    match pyInt (l3.take 3) with
                    | none => (.ok false, s)
                    | some lon_degs =>
                      match pyFloat (l3.drop 3) with
                      | none => (.ok false, s)
                      | some lon_mins =>
                        match s.gps_segments.get? 4 with
                        | none => (.error .indexError, s)
                        | some lon_hemi =>
                          if lat_hemi ∉ HEMISPHERES then (.ok false, s)
                          else if lon_hemi ∉ HEMISPHERES then (.ok false, s)
                          else
                            (.ok true,
                              { s with
                                latitude := (lat_degs, lat_mins, lat_hemi)
                                longitude := (lon_degs, lon_mins, lon_hemi)
                                valid := true })
        else
          (.ok true,
            { s with
              latitude := (0, PyFloat.zero, cs "N")
              longitude := (0, PyFloat.zero, cs "W")
              valid := false })

/-- `MicropyGPS.gpvtg` (VTG decoder). -/
def gpvtg (s : GPSState) : DecodeRes :=
  match s.gps_segments.get? 1 with
  | none => (.error .indexError, s)
  | some s1 =>
    let crsOpt : Option PyFloat := if s1 ≠ [] then pyFloat s1 else some PyFloat.zero
    match crsOpt with
    | none => (.ok false, s)
    | some crs =>
      match s.gps_segments.get? 5 with
      | none => (.error .indexError, s)
      | some s5 =>
        let spdOpt : Option PyFloat := if s5 ≠ [] then pyFloat s5 else some PyFloat.zero
        match spdOpt with
        | none => (.ok false, s)
        | some spd =>
          (.ok true,
            { s with
              speed := (spd, spd * ⟨1151, 1000⟩, spd * ⟨1852, 1000⟩)
              course := crs })

/-- `MicropyGPS.gpgga` (GGA decoder).  The first `try` catches both
`ValueError` and `IndexError`; the latitude/longitude block catches only
`ValueError`, so a missing segment there raises. -/
def gpgga (s : GPSState) : DecodeRes :=
  match s.gps_segments.get? 1 with
  | none => (.ok false, s)
  | some utc =>
    let hmsOpt : Option (Int × Int × PyFloat) :=
      if utc ≠ [] then
        match pyInt (utc.take 2), pyInt ((utc.drop 2).take 2), pyFloat (utc.drop 4) with
        | some h, some m, some sec => some ((h + s.local_offset) % 24, m, sec)
        | _, _, _ => none
      else some (0, 0, PyFloat.zero)
    match hmsOpt with
    | none => (.ok false, s)
    | some hms =>
      match s.gps_segments.get? 7 with
      | none => (.ok false, s)
      | some s7 =>
        match pyInt s7 with
        | none => (.ok false, s)
        | some sats_in_use =>
          match s.gps_segments.get? 6 with
          | none => (.ok false, s)
          | some s6 =>
            match pyInt s6 with
            | none => (.ok false, s)
            | some fxs =>
              let hdop : PyFloat :=
                match (s.gps_segments.get? 8).bind pyFloat with
                | some v => v
                | none => PyFloat.zero
              let after : GPSState → DecodeRes := fun st =>
                (.ok true,
                  { st with
                    timestamp := hms
                    satellites_in_use := sats_in_use
                    hdop := hdop
                    fix_stat := fxs })
              if fxs ≠ 0 then
                match s.gps_segments.get? 2 with
                | none => (.error .indexError, s)
                | some l2 =>
                  match pyInt (l2.take 2) with
                  | none => (.ok false, s)
                  | some lat_degs =>
                    match pyFloat (l2.drop 2) with
                    | none => (.ok false, s)
                    | some lat_mins =>
                      match s.gps_segments.get? 3 with
                      | none => (.error .indexError, s)
                      | some lat_hemi =>
                        match s.gps_segments.get? 4 with
                        | none => (.error .indexError, s)
                        | some l4 =>
                          match pyInt (l4.take 3) with
                          | none => (.ok false, s)
                          | some lon_degs =>
                            match pyFloat (l4.drop 3) with
                            | none => (.ok false, s)
                            | some lon_mins =>
                              match s.gps_segments.get? 5 with
                              | none => (.error .indexError, s)
                              | some lon_hemi =>
                                if lat_hemi ∉ HEMISPHERES then (.ok false, s)
                                else if lon_hemi ∉ HEMISPHERES then (.ok false, s)
                                else
                                  match s.gps_segments.get? 9 with
                                  | none => (.error .indexError, s)
                                  | some s9 =>
                                    let agOpt : Option (PyFloat × PyFloat) :=
                                      match pyFloat s9 with
                                      | none => some (PyFloat.zero, PyFloat.zero)
                                      | some av =>
                                        match s.gps_segments.get? 11 with
                                        | none => none
                                        | some s11 =>
                                          match pyFloat s11 with
                                          | none => some (PyFloat.zero, PyFloat.zero)
                                          | some gv => some (av, gv)
                                    match agOpt with
                                    | none =>
                                      -- `float(segs[11])` raised IndexError:
                                      -- `segs[9]` parsed but nothing written yet.
                                      (.error .indexError, s)
                                    | some ag =>
                                      after
                                        { s with
                                          latitude := (lat_degs, lat_mins, lat_hemi)
                                          longitude := (lon_degs, lon_mins, lon_hemi)
                                          altitude := ag.1
                                          geoid_height := ag.2 }
              else after s

/-- The bounded satellite loop of `MicropyGPS.gpgsa` (`for sats in
range(12)`); `none` in the inner `Option` models `return False`. -/
def gsaLoop (segs : List PStr) : Nat → Nat → List Int → Except PyErr (Option (List Int))
  | 0, _, acc => .ok (some acc)
  | fuel + 1, idx, acc =>
    match segs.get? idx with
    | none => .error .indexError
    | some str =>
      if str ≠ [] then
        match pyInt str with
        | some v => gsaLoop segs fuel (idx + 1) (acc ++ [v])
        | none => .ok none
      else .ok (some acc)

/-- `MicropyGPS.gpgsa` (GSA decoder); `new_fix_time()` omitted. -/
def gpgsa (s : GPSState) : DecodeRes :=
  match s.gps_segments.get? 2 with
  | none => (.error .indexError, s)
  | some s2 =>
    match pyInt s2 with
    | none => (.ok false, s)
    | some ft =>
      match gsaLoop s.gps_segments 12 3 [] with
      | .error e => (.error e, s)
      | .ok none => (.ok false, s)
      | .ok (some sats_used) =>
        match s.gps_segments.get? 15 with
        | none => (.error .indexError, s)
        | some s15 =>
          match pyFloat s15 with
          | none => (.ok false, s)
          | some pd =>
            match s.gps_segments.get? 16 with
            | none => (.error .indexError, s)
            | some s16 =>
              match pyFloat s16 with
              | none => (.ok false, s)
              | some hd =>
                match s.gps_segments.get? 17 with
                | none => (.error .indexError, s)
                | some s17 =>
                  match pyFloat s17 with
                  | none => (.ok false, s)
                  | some vd =>
                    (.ok true,
                      { s with
                        fix_type := ft
                        satellites_used := sats_used
                        hdop := hd
                        vdop := vd
                        pdop := pd })

/-- One satellite record of a GSV sentence. -/
abbrev SatEntry := Option Int × Option Int × Option Int

/-- Insert-or-replace on the model of a Python `dict` (insertion order kept,
as Python dicts do). -/
def upsert (l : List (Int × SatEntry)) (k : Int) (v : SatEntry) : List (Int × SatEntry) :=
  match l with
  | [] => [(k, v)]
  | (k', v') :: rest => if k' = k then (k, v) :: rest else (k', v') :: upsert rest k v

/-- Python `dict.update`. -/
def dictUpdate (old new : List (Int × SatEntry)) : List (Int × SatEntry) :=
  new.foldl (fun acc kv => upsert acc kv.1 kv.2) old

/-- The satellite loop of `MicropyGPS.gpgsv` (`for sats in range(4,
sat_segment_limit, 4)`); the fuel bounds the iteration count, with the
`idx < limit` range condition checked on every entry. -/
def gsvLoop (segs : List PStr) (limit : Int) :
    Nat → Nat → List (Int × SatEntry) → Except PyErr (Option (List (Int × SatEntry)))
  | 0, _, acc => .ok (some acc)
  | fuel + 1, idx, acc =>
    if (idx : Int) < limit then
      match segs.get? idx with
      | none => .error .indexError
      | some sstr =>
        if sstr = [] then .ok (some acc)
        else
          match pyInt sstr with
          | none => .ok none
          | some sat_id =>
            let elevation := (segs.get? (idx + 1)).bind pyInt
            let azimuth := (segs.get? (idx + 2)).bind pyInt
            let snr := (segs.get? (idx + 3)).bind pyInt
            gsvLoop segs limit fuel (idx + 4) (upsert acc sat_id (elevation, azimuth, snr))
    else .ok (some acc)

/-- `MicropyGPS.gpgsv` (GSV decoder). -/
def gpgsv (s : GPSState) : DecodeRes :=
  match s.gps_segments.get? 1 with
  | none => (.error .indexError, s)
  | some s1 =>
    match pyInt s1 with
    | none => (.ok false, s)
    | some num_sv =>
      match s.gps_segments.get? 2 with
      | none => (.error .indexError, s)
      | some s2 =>
        match pyInt s2 with
        | none => (.ok false, s)
        | some cur_sv =>
          match s.gps_segments.get? 3 with
          | none => (.error .indexError, s)
          | some s3 =>
            match pyInt s3 with
            | none => (.ok false, s)
            | some sats_in_view =>
              let limit : Int :=
                if num_sv = cur_sv then (sats_in_view - (num_sv - 1) * 4) * 5
                else 20
              match gsvLoop s.gps_segments limit limit.toNat 4 [] with
              | .error e => (.error e, s)
              | .ok none => (.ok false, s)
              | .ok (some satellite_dict) =>
                (.ok true,
                  { s with
                    total_sv_sentences := num_sv
                    last_sv_sentence := cur_sv
                    satellites_in_view := sats_in_view
                    satellite_data :=
                      if cur_sv = 1 then satellite_dict
                      else dictUpdate s.satellite_data satellite_dict })

/-- The class-level dispatch dict `MicropyGPS.supported_sentences`, in source
order (17 entries). -/
def supported_sentences : List (PStr × (GPSState → DecodeRes)) :=
  [(cs "GPRMC", gprmc), (cs "GLRMC", gprmc),
   (cs "GPGGA", gpgga), (cs "GLGGA", gpgga),
   (cs "GPVTG", gpvtg), (cs "GLVTG", gpvtg),
   (cs "GPGSA", gpgsa), (cs "GLGSA", gpgsa),
   (cs "GPGSV", gpgsv), (cs "GLGSV", gpgsv),
   (cs "GPGLL", gpgll), (cs "GLGLL", gpgll),
   (cs "GNGGA", gpgga), (cs "GNRMC", gprmc),
   (cs "GNVTG", gpvtg), (cs "GNGLL", gpgll),
   (cs "GNGSA", gpgsa)]

/-- Dict lookup (`id in supported_sentences` / `supported_sentences[id]`). -/
def supportedLookup (id0 : PStr) : Option (GPSState → DecodeRes) :=
  supported_sentences.lookup id0

/-- `MicropyGPS.SENTENCE_LIMIT`. -/
def SENTENCE_LIMIT : Nat := 90

/-- `MicropyGPS.new_sentence`. -/
def newSentence (s : GPSState) : GPSState :=
  { s with
    gps_segments := [[]]
    active_segment := 0
    crc_xor := 0
    sentence_active := true
    process_crc := true
    char_count := 0 }

/-- Python `l[i] += c` on the segment list: returns the updated list and the
updated entry, or `none` for `IndexError`. -/
def pyAppendAt (l : List PStr) (i : Nat) (c : Nat) : Option (List PStr × PStr) :=
  match l.get? i with
  | none => none
  | some x => some (l.set i (x ++ [c]), x ++ [c])

/-- Result of feeding one character: the returned sentence identifier (or
`none`), or an uncaught exception; paired with the post-call state. -/
abbrev UpdRes := Except PyErr (Option PStr) × GPSState

/-- The trailing sentence-length overflow check of `update` (`if
self.char_count > self.SENTENCE_LIMIT: self.sentence_active = False`),
followed by `return None`. -/
def endCheck (st : GPSState) : UpdRes :=
  if st.char_count > SENTENCE_LIMIT then (.ok none, { st with sentence_active := false })
  else (.ok none, st)

/-- The `if valid_sentence:` block of `update`, after `clean_sentences` has
been credited and the sentence closed: identifier lookup, decoder dispatch,
and the returns of lines 571-576, falling through to the overflow check. -/
def dispatchValid (s3 : GPSState) : UpdRes :=
  match s3.gps_segments.get? 0 with
  | none => (.error .indexError, s3)
  | some id0 =>
    match supportedLookup id0 with
    | some d =>
      match d s3 with
      | (.error e, s4) => (.error e, s4)
      | (.ok true, s4) =>
        let s5 := { s4 with parsed_sentences := s4.parsed_sentences + 1 }
        match s5.gps_segments.get? 0 with
        | none => (.error .indexError, s5)
        | some id1 => (.ok (some id1), s5)
      | (.ok false, s4) => endCheck s4
    | none => endCheck s3

/-- The common tail of `update` for a non-`$`, non-`*` character inside an
active sentence: XOR accumulation, the valid-sentence block, and the
sentence-length overflow check, in source order. -/
def finishChar (c : Nat) (validSentence : Bool) (s1 : GPSState) : UpdRes :=
  let s2 := if s1.process_crc then { s1 with crc_xor := s1.crc_xor ^^^ c } else s1
  if validSentence then
    dispatchValid { s2 with
                    clean_sentences := s2.clean_sentences + 1
                    sentence_active := false }
  else endCheck s2

/-- `MicropyGPS.update`, fed the code point of one character (`ord(new_char)`);
the file-logging branch is dead (`log_en` is never enabled here). -/
def update (s0 : GPSState) (c : Nat) : UpdRes :=
  if 10 ≤ c ∧ c ≤ 126 then
    let s := { s0 with char_count := s0.char_count + 1 }
    if c = 36 then (.ok none, newSentence s)
    else if s.sentence_active then
      if c = 42 then
        (.ok none,
          { s with
            process_crc := false
            active_segment := s.active_segment + 1
            gps_segments := s.gps_segments ++ [[]] })
      else if c = 44 then
        finishChar c false
          { s with
            active_segment := s.active_segment + 1
            gps_segments := s.gps_segments ++ [[]] }
      else
        match pyAppendAt s.gps_segments s.active_segment c with
        | none => (.error .indexError, s)
        | some (segs, seg) =>
          let s1 := { s with gps_segments := segs }
          if s1.process_crc then finishChar c false s1
          else if seg.length = 2 then
            match pyIntBase16 seg with
            | some v =>
              if (s1.crc_xor : Int) = v then finishChar c true s1
              else finishChar c false { s1 with crc_fails := s1.crc_fails + 1 }
            | none => finishChar c false s1
          else finishChar c false s1
    else (.ok none, s)
  else (.ok none, s0)

/-- Feed a byte sequence one character at a time, collecting the per-byte
return values; stops at the first uncaught exception, keeping the state the
exception left behind (the caller's feeding loop dies there). -/
def runBytes (s : GPSState) : List Nat → GPSState × List (Option PStr) × Option PyErr
  | [] => (s, [], none)
  | b :: rest =>
    match update s b with
    | (.error e, s') => (s', [], some e)
    | (.ok o, s') =>
      match runBytes s' rest with
      | (s'', os, e?) => (s'', o :: os, e?)

/-! ## GPSReader (`src/gps_reader.py`): decimal coordinates, Maidenhead, UTM -/

/-- The state of a `GPSReader` (its `__slots__`), with the UART handle
omitted (hardware); `latitude`/`longitude` caches model `_lat_mins`,
`_lat_dec`, etc., with Python `None` as `Option.none`. -/
structure ReaderState where
  gps : GPSState
  has_ever_had_fix : Bool
  lat_mins : Option PyFloat
  lat_dec : PyFloat
  lon_mins : Option PyFloat
  lon_dec : PyFloat
  cached_mh_lat : Option PyFloat
  cached_mh_lon : Option PyFloat
  cached_mh : String
  cached_utm_lat : Option PyFloat
  cached_utm_lon : Option PyFloat
  cached_utm : String
deriving Repr

/-- `GPSReader.__init__` (the wrapped `MicropyGPS()` is constructed with the
default `local_offset=0`). -/
def initReader : ReaderState :=
  { gps := initState 0
    has_ever_had_fix := false
    lat_mins := none
    lat_dec := ⟨0, 1⟩
    lon_mins := none
    lon_dec := ⟨0, 1⟩
    cached_mh_lat := none
    cached_mh_lon := none
    cached_mh := "------"
    cached_utm_lat := none
    cached_utm_lon := none
    cached_utm := "-- --E --N" }

/-- Python `x != m` where `m` is a float or `None` (`x != None` is true;
floats compare by value). -/
def neqOpt (a : PyFloat) (m : Option PyFloat) : Bool :=
  match m with
  | none => true
  | some b => !(a.beq b)

/-- Python `x == m` where `m` is a float or `None`. -/
def eqOpt (a : PyFloat) (m : Option PyFloat) : Bool :=
  match m with
  | none => false
  | some b => a.beq b

/-- `GPSReader.latitude_decimal` (cached on the raw minutes value). -/
def latitude_decimal (r : ReaderState) : PyFloat × ReaderState :=
  let lat := r.gps.latitude
  if neqOpt lat.2.1 r.lat_mins then
    let dec0 := PyFloat.ofInt lat.1 + lat.2.1 / ⟨60, 1⟩
    let dec := if lat.2.2 = cs "S" then -dec0 else dec0
    (dec, { r with lat_mins := some lat.2.1, lat_dec := dec })
  else (r.lat_dec, r)

/-- `GPSReader.longitude_decimal` (cached on the raw minutes value). -/
def longitude_decimal (r : ReaderState) : PyFloat × ReaderState :=
  let lon := r.gps.longitude
  if neqOpt lon.2.1 r.lon_mins then
    let dec0 := PyFloat.ofInt lon.1 + lon.2.1 / ⟨60, 1⟩
    let dec := if lon.2.2 = cs "W" then -dec0 else dec0
    (dec, { r with lon_mins := some lon.2.1, lon_dec := dec })
  else (r.lon_dec, r)

/-- The Maidenhead encoding computation of `GPSReader.maidenhead` (the body
of its cache-miss branch).  Python `chr` is modelled totally via
`Char.ofNat` (out-of-range code points, which `chr` would raise on, are not
reachable from parsed coordinates and no claim touches them). -/
def mhCompute (lat lon : PyFloat) : String :=
  let lon_adj := lon + ⟨180, 1⟩
  let lat_adj := lat + ⟨90, 1⟩
  let lon_field := (lon_adj / ⟨20, 1⟩).trunc
  let lat_field := (lat_adj / ⟨10, 1⟩).trunc
  let lon_sq := ((lon_adj - PyFloat.ofInt (lon_field * 20)) / ⟨2, 1⟩).trunc
  let lat_sq := (lat_adj - PyFloat.ofInt (lat_field * 10)).trunc
  let lon_sub :=
    ((lon_adj - PyFloat.ofInt (lon_field * 20) - PyFloat.ofInt (lon_sq * 2)) * ⟨12, 1⟩).trunc
  let lat_sub :=
    ((lat_adj - PyFloat.ofInt (lat_field * 10) - PyFloat.ofInt lat_sq) * ⟨24, 1⟩).trunc
  String.mk
    [Char.ofNat (65 + lon_field).toNat, Char.ofNat (65 + lat_field).toNat,
     Char.ofNat (48 + lon_sq).toNat, Char.ofNat (48 + lat_sq).toNat,
     Char.ofNat (97 + lon_sub).toNat, Char.ofNat (97 + lat_sub).toNat]

/-- `GPSReader.maidenhead`. -/
def maidenhead (r : ReaderState) : String × ReaderState :=
  if r.has_ever_had_fix = false then ("------", r)
  else
    match latitude_decimal r with
    | (lat, r1) =>
      match longitude_decimal r1 with
      | (lon, r2) =>
        if eqOpt lat r2.cached_mh_lat && eqOpt lon r2.cached_mh_lon then
          (r2.cached_mh, r2)
        else
          (mhCompute lat lon,
           { r2 with cached_mh_lat := some lat, cached_mh_lon := some lon,
                     cached_mh := mhCompute lat lon })

/-- The trigonometric primitives `utm` draws from Python's `math` module,
kept abstract: every caching property below holds for an arbitrary
interpretation of them. -/
structure TrigModel where
  sin : PyFloat → PyFloat
  cos : PyFloat → PyFloat
  tan : PyFloat → PyFloat
  sqrt : PyFloat → PyFloat
  pi : PyFloat

/-- Python `"{:0Nd}".format(n)`: zero-pad to width `w` (sign included). -/
def padInt (w : Nat) (n : Int) : String :=
  let digits := toString n.natAbs
  let sign := if n < 0 then "-" else ""
  let pad := String.mk (List.replicate (w - (sign.length + digits.length)) (Char.ofNat 48))
  sign ++ pad ++ digits

/-- The latitude-band table `'CDEFGHJKLMNPQRSTUVWX'`. -/
def bandsList : List Char := "CDEFGHJKLMNPQRSTUVWX".data

/-- The WGS84 transverse-Mercator computation of `GPSReader.utm` (the body
of its cache-miss branch), over an arbitrary interpretation `T` of the trig
primitives.  Band indexing is modelled with a defaulted lookup; Python would
raise `IndexError` at the single boundary value `lat == 84` (index 20 into a
20-character table), which no claim exercises. -/
def utmCompute (T : TrigModel) (lat lon : PyFloat) : String :=
  let a : PyFloat := ⟨6378137, 1⟩
  let f : PyFloat := ⟨1, 1⟩ / ⟨298257223563, 1000000000⟩
  let e2 := ⟨2, 1⟩ * f - f * f
  let ep2 := e2 / (⟨1, 1⟩ - e2)
  let k0 : PyFloat := ⟨9996, 10000⟩
  let zone : Int := ((lon + ⟨180, 1⟩) / ⟨6, 1⟩).trunc + 1
  let lon0 : Int := (zone - 1) * 6 - 180 + 3
  let lat_r := lat * T.pi / ⟨180, 1⟩
  let dlon := (lon - PyFloat.ofInt lon0) * T.pi / ⟨180, 1⟩
  let sin_lat := T.sin lat_r
  let cos_lat := T.cos lat_r
  let tan_lat := T.tan lat_r
  let NN := a / T.sqrt (⟨1, 1⟩ - e2 * sin_lat * sin_lat)
  let Tt := tan_lat * tan_lat
  let C := ep2 * cos_lat * cos_lat
  let A := cos_lat * dlon
  let M := a * ((⟨1, 1⟩ - e2 / ⟨4, 1⟩ - ⟨3, 1⟩ * e2 * e2 / ⟨64, 1⟩) * lat_r
            - (⟨3, 1⟩ * e2 / ⟨8, 1⟩ + ⟨3, 1⟩ * e2 * e2 / ⟨32, 1⟩) * T.sin (⟨2, 1⟩ * lat_r)
            + (⟨15, 1⟩ * e2 * e2 / ⟨256, 1⟩) * T.sin (⟨4, 1⟩ * lat_r))
  let A2 := A * A
  let A3 := A2 * A
  let A4 := A3 * A
  let A5 := A4 * A
  let A6 := A5 * A
  let easting := k0 * NN * (A + (⟨1, 1⟩ - Tt + C) * A3 / ⟨6, 1⟩
                  + (⟨5, 1⟩ - ⟨18, 1⟩ * Tt + Tt * Tt + ⟨72, 1⟩ * C - ⟨58, 1⟩ * ep2)
                    * A5 / ⟨120, 1⟩) + ⟨500000, 1⟩
  let northing0 := k0 * (M + NN * tan_lat * (A2 / ⟨2, 1⟩
                  + (⟨5, 1⟩ - Tt + ⟨9, 1⟩ * C + ⟨4, 1⟩ * C * C) * A4 / ⟨24, 1⟩
                  + (⟨61, 1⟩ - ⟨58, 1⟩ * Tt + Tt * Tt + ⟨600, 1⟩ * C - ⟨330, 1⟩ * ep2)
                    * A6 / ⟨720, 1⟩))
  let northing := if PyFloat.blt lat ⟨0, 1⟩ then northing0 + ⟨10000000, 1⟩ else northing0
  let band : Char :=
    if PyFloat.ble ⟨-80, 1⟩ lat && PyFloat.ble lat ⟨84, 1⟩ then
      bandsList.getD ((lat + ⟨80, 1⟩) / ⟨8, 1⟩).trunc.toNat (Char.ofNat 88)
    else if PyFloat.blt ⟨84, 1⟩ lat then Char.ofNat 88 else Char.ofNat 67
  toString zone ++ String.mk [band] ++ " "
    ++ padInt 6 easting.trunc ++ "E "
    ++ padInt 7 northing.trunc ++ "N"

/-- `GPSReader.utm`. -/
def utm (T : TrigModel) (r : ReaderState) : String × ReaderState :=
  if r.has_ever_had_fix = false then ("-- --E --N", r)
  else
    match latitude_decimal r with
    | (lat, r1) =>
      match longitude_decimal r1 with
      | (lon, r2) =>
        if eqOpt lat r2.cached_utm_lat && eqOpt lon r2.cached_utm_lon then
          (r2.cached_utm, r2)
        else
          (utmCompute T lat lon,
           { r2 with cached_utm_lat := some lat, cached_utm_lon := some lon,
                     cached_utm := utmCompute T lat lon })

/-! ## Infrastructure for reasoning about whole-sentence runs -/

/-- A body character of a framed sentence: printable, not `$`, not `*`
(commas are allowed; they separate fields). -/
def plainChar (c : Nat) : Prop := 10 ≤ c ∧ c ≤ 126 ∧ c ≠ 36 ∧ c ≠ 42

instance (c : Nat) : Decidable (plainChar c) := by unfold plainChar; infer_instance

/-- Running XOR of a character list (the checksum the parser accumulates). -/
def xorOf (body : List Nat) : Nat := body.foldl (fun a c => a ^^^ c) 0

/-- Append a character to the last segment. -/
def appendLast (segs : List PStr) (c : Nat) : List PStr :=
  match segs with
  | [] => []
  | [x] => [x ++ [c]]
  | x :: rest => x :: appendLast rest c

/-- Effect of one body character on the split segment list. -/
def segPush (segs : List PStr) (c : Nat) : List PStr :=
  if c = 44 then segs ++ [[]] else appendLast segs c

/-- The segment list the parser holds after the body prefix `p`. -/
def segsOf (p : List Nat) : List PStr := p.foldl segPush [[]]

/-- Parser state after `$` followed by the body prefix `p`. -/
def bodyState (s : GPSState) (p : List Nat) : GPSState :=
  { newSentence s with
    gps_segments := segsOf p
    active_segment := p.count 44
    crc_xor := xorOf p
    char_count := p.length }

/-- Parser state after `$`, body `p`, and `*`. -/
def afterStar (s : GPSState) (p : List Nat) : GPSState :=
  { bodyState s p with
    process_crc := false
    active_segment := p.count 44 + 1
    gps_segments := segsOf p ++ [[]]
    char_count := p.length + 1 }

/-- Parser state after `$`, body `p`, `*`, and the first checksum digit. -/
def afterD1 (s : GPSState) (p : List Nat) (d1 : Nat) : GPSState :=
  { afterStar s p with
    gps_segments := segsOf p ++ [[d1]]
    char_count := p.length + 2 }

/-- Parser state at the moment a checksum-valid sentence is dispatched (or
found unsupported): both checksum digits consumed, `clean_sentences`
credited, sentence closed. -/
def preDispatch (s : GPSState) (body : List Nat) (d1 d2 : Nat) : GPSState :=
  { afterD1 s body d1 with
    gps_segments := segsOf body ++ [[d1, d2]]
    char_count := body.length + 3
    sentence_active := false
    clean_sentences := s.clean_sentences + 1 }

/-- Parser state after a checksum mismatch on the second checksum digit. -/
def postMismatch (s : GPSState) (body : List Nat) (d1 d2 : Nat) : GPSState :=
  { afterD1 s body d1 with
    gps_segments := segsOf body ++ [[d1, d2]]
    char_count := body.length + 3
    crc_fails := s.crc_fails + 1
    sentence_active := if body.length + 3 > SENTENCE_LIMIT then false else true }

/-- The full byte frame of one sentence: `$`, body, `*`, two checksum
characters. -/
def mkSentence (body : List Nat) (d1 d2 : Nat) : List Nat :=
  36 :: body ++ [42, d1, d2]

/-- Structural invariant of the segment buffer: while a sentence is active,
`active_segment` points at the last segment.  `update` maintains it from
`new_sentence` on, and under it the parser's own indexing never fails. -/
def SegInv (s : GPSState) : Prop :=
  s.sentence_active = true → s.gps_segments.length = s.active_segment + 1

instance (s : GPSState) : Decidable (SegInv s) := by unfold SegInv; infer_instance

/-- Hemisphere invariant the code actually maintains: both stored hemisphere
letters are members of the combined tuple `('N','S','E','W')`. -/
def HemiInv (s : GPSState) : Prop :=
  s.latitude.2.2 ∈ HEMISPHERES ∧ s.longitude.2.2 ∈ HEMISPHERES

instance (s : GPSState) : Decidable (HemiInv s) := by unfold HemiInv; infer_instance

/-- Mirror of the conditions under which `update` invokes a field decoder on
a completed checksum-valid sentence (the one code path that can raise). -/
def dispatchesDecoder (s : GPSState) (c : Nat) : Bool :=
  if 10 ≤ c ∧ c ≤ 126 then
    if c = 36 then false
    else if s.sentence_active then
      if c = 42 then false
      else if c = 44 then false
      else
        match pyAppendAt s.gps_segments s.active_segment c with
        | none => false
        | some (segs, seg) =>
          if s.process_crc then false
          else if seg.length = 2 then
            match pyIntBase16 seg with
            | some v =>
              if (s.crc_xor : Int) = v then
                match segs.get? 0 with
                | none => false
                | some id0 => (supportedLookup id0).isSome
              else false
            | none => false
          else false
    else false
  else false

/-- The key list of `supported_sentences`, spelled out. -/
def supportedIds : List PStr :=
  [cs "GPRMC", cs "GLRMC", cs "GPGGA", cs "GLGGA", cs "GPVTG", cs "GLVTG",
   cs "GPGSA", cs "GLGSA", cs "GPGSV", cs "GLGSV", cs "GPGLL", cs "GLGLL",
   cs "GNGGA", cs "GNRMC", cs "GNVTG", cs "GNGLL", cs "GNGSA"]

/-- A reader holding the spec's example raw coordinates: latitude
(40°, 42.768′, N), longitude (74°, 0.360′, W), caches fresh. -/
def c7Reader : ReaderState :=
  { initReader with
    gps := { initState 0 with
             latitude := (40, ⟨42768, 1000⟩, cs "N")
             longitude := (74, ⟨360, 1000⟩, cs "W") } }

/-- A concrete trigonometric interpretation for witnesses (the caching
claims hold for every interpretation). -/
def T0 : TrigModel :=
  { sin := fun _ => ⟨0, 1⟩
    cos := fun _ => ⟨0, 1⟩
    tan := fun _ => ⟨0, 1⟩
    sqrt := fun _ => ⟨1, 1⟩
    pi := ⟨314159, 100000⟩ }

/-- A reader state with a fix, for exercising the caching paths concretely. -/
def c8Reader : ReaderState := { c7Reader with has_ever_had_fix := true }

/-! ## Theorems: generic facts about the parser state machine -/

set_option maxRecDepth 100000

theorem segsOf_append (p : List Nat) (c : Nat) :
    segsOf (p ++ [c]) = segPush (segsOf p) c := by
  simp [segsOf, List.foldl_append]

theorem appendLast_length (segs : List PStr) (c : Nat) :
    (appendLast segs c).length = segs.length := by
  induction segs with
  | nil => rfl
  | cons x rest ih =>
    cases rest with
    | nil => rfl
    | cons y t => simpa [appendLast] using ih

theorem segPush_length (segs : List PStr) (c : Nat) :
    (segPush segs c).length = if c = 44 then segs.length + 1 else segs.length := by
  by_cases h : c = 44 <;> simp [segPush, h, appendLast_length]

theorem segsOf_length (p : List Nat) : (segsOf p).length = p.count 44 + 1 := by
  have aux : ∀ (q : List Nat) (init : List PStr),
      (q.foldl segPush init).length = init.length + q.count 44 := by
    intro q
    induction q with
    | nil => intro init; simp
    | cons c rest ih =>
      intro init
      by_cases h : c = 44 <;>
        simp [List.foldl_cons, ih, segPush_length, h, List.count_cons] <;> omega
  unfold segsOf
  rw [aux p [[]]]
  simp [Nat.add_comm]

theorem segsOf_ne_nil (p : List Nat) : segsOf p ≠ [] := by
  have := segsOf_length p
  intro h
  rw [h] at this
  simp at this

theorem xorOf_append (p : List Nat) (c : Nat) : xorOf (p ++ [c]) = xorOf p ^^^ c := by
  simp [xorOf, List.foldl_append]

theorem set_concat_last {α : Type} (l : List α) (x y : α) :
    (l ++ [x]).set l.length y = l ++ [y] := by
  induction l with
  | nil => rfl
  | cons a t ih => simp [List.set, ih]

theorem get?_concat_last {α : Type} (l : List α) (x : α) :
    (l ++ [x]).get? l.length = some x := by
  induction l with
  | nil => rfl
  | cons a t ih => simpa using ih

theorem pyAppendAt_concat (l : List PStr) (x : PStr) (c : Nat) :
    pyAppendAt (l ++ [x]) l.length c = some (l ++ [x ++ [c]], x ++ [c]) := by
  simp [pyAppendAt, get?_concat_last, set_concat_last]

theorem appendLast_concat (l : List PStr) (x : PStr) (c : Nat) :
    appendLast (l ++ [x]) c = l ++ [x ++ [c]] := by
  induction l with
  | nil => rfl
  | cons a t ih =>
    cases t with
    | nil => simp [appendLast]
    | cons b u => simpa [appendLast] using ih

theorem pyAppendAt_last (segs : List PStr) (i c : Nat) (h : segs.length = i + 1) :
    ∃ seg, pyAppendAt segs i c = some (appendLast segs c, seg) := by
  rcases List.eq_nil_or_concat segs with rfl | ⟨l, x, rfl⟩
  · simp at h
  · rw [List.concat_eq_append] at h ⊢
    have hl : l.length = i := by simpa using h
    subst hl
    exact ⟨x ++ [c], by rw [pyAppendAt_concat, appendLast_concat]⟩

theorem runBytes_append (s : GPSState) (xs ys : List Nat) :
    runBytes s (xs ++ ys) =
      match runBytes s xs with
      | (s1, os1, some e) => (s1, os1, some e)
      | (s1, os1, none) =>
        match runBytes s1 ys with
        | (s2, os2, e2) => (s2, os1 ++ os2, e2) := by
  induction xs generalizing s with
  | nil => simp [runBytes]
  | cons b rest ih =>
    rcases hu : update s b with ⟨r, s'⟩
    cases r with
    | error e => simp [runBytes, hu]
    | ok o =>
      have ih' := ih s'
      simp only [List.cons_append, runBytes, hu, List.append_eq]
      rw [ih']
      rcases hr : runBytes s' rest with ⟨s1, os1, e1⟩
      cases e1 <;> simp [hr]

theorem update_body_char (s : GPSState) (p : List Nat) (c : Nat)
    (hc : plainChar c) (hlen : p.length + 1 ≤ 90) :
    update (bodyState s p) c = (.ok none, bodyState s (p ++ [c])) := by
  obtain ⟨h10, h126, h36, h42⟩ := hc
  have hnlt : ¬ (90 < p.length + 1) := by omega
  by_cases h44 : c = 44
  · subst h44
    have hcnt : List.count 44 [44] = 1 := by simp
    simp [update, bodyState, newSentence, finishChar, endCheck, SENTENCE_LIMIT, h36,
          segsOf_append, segPush, xorOf_append, List.count_append, hcnt, hnlt]
  · have happ := pyAppendAt_last (segsOf p) (p.count 44) c (by simp [segsOf_length])
    obtain ⟨seg, hseg⟩ := happ
    have hcnt : List.count 44 [c] = 0 := by
      rw [List.count_eq_zero]
      simp only [List.mem_singleton]
      omega
    simp [update, bodyState, newSentence, finishChar, endCheck, SENTENCE_LIMIT,
          h10, h126, h36, h42, h44, hseg,
          segsOf_append, segPush, xorOf_append, List.count_append, hcnt, hnlt]

theorem run_body (s : GPSState) (p : List Nat)
    (hb : ∀ c ∈ p, plainChar c) (hlen : p.length ≤ 90) :
    runBytes (bodyState s []) p = (bodyState s p, List.replicate p.length none, none) := by
  induction p using List.reverseRecOn with
  | nil => simp [runBytes]
  | append_singleton q c ih =>
    have hq : ∀ x ∈ q, plainChar x := fun x hx => hb x (by simp [hx])
    have hql : q.length ≤ 90 := by simp at hlen; omega
    rw [runBytes_append, ih hq hql]
    have hc : plainChar c := hb c (by simp)
    have hstep := update_body_char s q c hc (by simp at hlen; omega)
    simp [runBytes, hstep, List.replicate_succ']

theorem hexDigit_bounds (c : Nat) (h : (hexDigit? c).isSome) : 48 ≤ c ∧ c ≤ 102 := by
  unfold hexDigit? at h
  repeat' split at h
  all_goals simp_all
  all_goals omega

theorem pyHex2 (d1 d2 h1v h2v : Nat)
    (hd1 : hexDigit? d1 = some h1v) (hd2 : hexDigit? d2 = some h2v) :
    pyIntBase16 [d1, d2] = some (Int.ofNat (h1v * 16 + h2v)) := by
  have hb1 := hexDigit_bounds d1 (by simp [hd1])
  have hb2 := hexDigit_bounds d2 (by simp [hd2])
  have hs1 : isPySpace d1 = false := by simp [isPySpace]; omega
  have hs2 : isPySpace d2 = false := by simp [isPySpace]; omega
  have hst : stripWs [d1, d2] = [d1, d2] := by
    simp [stripWs, List.dropWhile, hs1, hs2]
  have hd2ne120 : d2 ≠ 120 := by
    intro h; rw [h] at hd2; simp [hexDigit?] at hd2
  have hd2ne88 : d2 ≠ 88 := by
    intro h; rw [h] at hd2; simp [hexDigit?] at hd2
  have hcore : pyHexCore [d1, d2] = some (h1v * 16 + h2v) := by
    unfold pyHexCore
    split
    · next rest heq =>
      exfalso
      obtain ⟨-, hb'⟩ := List.cons.inj heq
      obtain ⟨hb1', -⟩ := List.cons.inj hb'
      exact hd2ne120 hb1'
    · next rest heq =>
      exfalso
      obtain ⟨-, hb'⟩ := List.cons.inj heq
      obtain ⟨hb1', -⟩ := List.cons.inj hb'
      exact hd2ne88 hb1'
    · simp [hexVal?, hd1, hd2]
  unfold pyIntBase16
  rw [hst]
  split
  · next r heq =>
    exfalso
    obtain ⟨ha, -⟩ := List.cons.inj heq
    omega
  · next r heq =>
    exfalso
    obtain ⟨ha, -⟩ := List.cons.inj heq
    omega
  · rw [hcore]
    rfl

theorem update_dollar (s : GPSState) : update s 36 = (.ok none, bodyState s []) := by
  simp [update, newSentence, bodyState, segsOf, xorOf]

theorem update_star (s : GPSState) (p : List Nat) :
    update (bodyState s p) 42 = (.ok none, afterStar s p) := by
  simp [update, bodyState, newSentence, afterStar]

theorem hexDigit_plain (d : Nat) (h : (hexDigit? d).isSome) :
    (10 ≤ d ∧ d ≤ 126) ∧ d ≠ 36 ∧ d ≠ 42 ∧ d ≠ 44 ∧ d ≠ 43 ∧ d ≠ 45 := by
  have := hexDigit_bounds d h
  omega

theorem update_d1 (s : GPSState) (p : List Nat) (d1 : Nat)
    (hd1 : (hexDigit? d1).isSome) (hlen : p.length + 2 ≤ 90) :
    update (afterStar s p) d1 = (.ok none, afterD1 s p d1) := by
  obtain ⟨⟨h10, h126⟩, h36, h42, h44, -, -⟩ := hexDigit_plain d1 hd1
  have happ : pyAppendAt (segsOf p ++ [[]]) (p.count 44 + 1) d1
      = some (segsOf p ++ [[d1]], [d1]) := by
    rw [show p.count 44 + 1 = (segsOf p).length from (segsOf_length p).symm]
    simpa using pyAppendAt_concat (segsOf p) [] d1
  have hnlt : ¬ (90 < p.length + 2) := by omega
  simp [update, afterStar, afterD1, bodyState, newSentence, finishChar, endCheck,
        SENTENCE_LIMIT, h10, h126, h36, h42, h44, happ, hnlt]

theorem d2_append (p : List Nat) (d1 d2 : Nat) :
    pyAppendAt (segsOf p ++ [[d1]]) (p.count 44 + 1) d2
      = some (segsOf p ++ [[d1, d2]], [d1, d2]) := by
  rw [show p.count 44 + 1 = (segsOf p).length from (segsOf_length p).symm]
  simpa using pyAppendAt_concat (segsOf p) [d1] d2

theorem update_d2_valid (s : GPSState) (p : List Nat) (d1 d2 h1v h2v : Nat)
    (hd1 : hexDigit? d1 = some h1v) (hd2 : hexDigit? d2 = some h2v)
    (hcrc : h1v * 16 + h2v = xorOf p) :
    update (afterD1 s p d1) d2 = dispatchValid (preDispatch s p d1 d2) := by
  obtain ⟨⟨h10, h126⟩, h36, h42, h44, -, -⟩ := hexDigit_plain d2 (by simp [hd2])
  have hhex := pyHex2 d1 d2 h1v h2v hd1 hd2
  have hcast : ((xorOf p : Int) = (h1v : Int) * 16 + (h2v : Int)) := by
    push_cast
    omega
  have hpd : preDispatch s p d1 d2 =
      { afterD1 s p d1 with
        gps_segments := segsOf p ++ [[d1, d2]]
        char_count := p.length + 3
        sentence_active := false
        clean_sentences := s.clean_sentences + 1 } := rfl
  simp [update, afterD1, afterStar, bodyState, newSentence, finishChar,
        h10, h126, h36, h42, h44, d2_append, hhex, hcast, hpd]

theorem update_d2_mismatch (s : GPSState) (p : List Nat) (d1 d2 h1v h2v : Nat)
    (hd1 : hexDigit? d1 = some h1v) (hd2 : hexDigit? d2 = some h2v)
    (hne : h1v * 16 + h2v ≠ xorOf p) :
    update (afterD1 s p d1) d2 = (.ok none, postMismatch s p d1 d2) := by
  obtain ⟨⟨h10, h126⟩, h36, h42, h44, -, -⟩ := hexDigit_plain d2 (by simp [hd2])
  have hhex := pyHex2 d1 d2 h1v h2v hd1 hd2
  have hncast : ¬ ((xorOf p : Int) = (h1v : Int) * 16 + (h2v : Int)) := by
    push_cast
    omega
  by_cases hover : 90 < p.length + 3 <;>
    simp [update, afterD1, afterStar, bodyState, newSentence, finishChar, endCheck,
          postMismatch, SENTENCE_LIMIT,
          h10, h126, h36, h42, h44, d2_append, hhex, hncast, hover]

theorem set_sa_false_eq (s : GPSState) (h : s.sentence_active = false) :
    ({ s with sentence_active := false } : GPSState) = s := by
  conv_rhs => rw [show s = { s with sentence_active := s.sentence_active } from rfl]
  rw [h]

theorem endCheck_inactive (s : GPSState) (h : s.sentence_active = false) :
    endCheck s = (.ok none, s) := by
  unfold endCheck
  split
  · rw [set_sa_false_eq s h]
  · rfl

theorem dispatchValid_none (s3 : GPSState) (id0 : PStr)
    (hid0 : s3.gps_segments[0]? = some id0)
    (hlook : supportedLookup id0 = none)
    (hsa : s3.sentence_active = false) :
    dispatchValid s3 = (.ok none, s3) := by
  simp [dispatchValid, hid0, hlook, endCheck_inactive s3 hsa]

theorem dispatchValid_ok_true (s3 : GPSState) (id0 idr : PStr)
    (d : GPSState → DecodeRes) (s4 : GPSState)
    (hid0 : s3.gps_segments[0]? = some id0)
    (hlook : supportedLookup id0 = some d)
    (hdec : d s3 = (.ok true, s4))
    (hs4 : s4.gps_segments[0]? = some idr) :
    dispatchValid s3 = (.ok (some idr), { s4 with parsed_sentences := s4.parsed_sentences + 1 }) := by
  simp [dispatchValid, hid0, hlook, hdec, hs4]

theorem dispatchValid_ok_false (s3 : GPSState) (id0 : PStr)
    (d : GPSState → DecodeRes) (s4 : GPSState)
    (hid0 : s3.gps_segments[0]? = some id0)
    (hlook : supportedLookup id0 = some d)
    (hdec : d s3 = (.ok false, s4))
    (hsa : s4.sentence_active = false) :
    dispatchValid s3 = (.ok none, s4) := by
  simp [dispatchValid, hid0, hlook, hdec, endCheck_inactive s4 hsa]

theorem dispatchValid_error (s3 : GPSState) (id0 : PStr)
    (d : GPSState → DecodeRes) (s4 : GPSState) (e : PyErr)
    (hid0 : s3.gps_segments[0]? = some id0)
    (hlook : supportedLookup id0 = some d)
    (hdec : d s3 = (.error e, s4)) :
    dispatchValid s3 = (.error e, s4) := by
  simp [dispatchValid, hid0, hlook, hdec]

theorem gprmc_frame (s : GPSState) :
    (gprmc s).2.clean_sentences = s.clean_sentences ∧
    (gprmc s).2.parsed_sentences = s.parsed_sentences ∧
    (gprmc s).2.crc_fails = s.crc_fails ∧
    (gprmc s).2.gps_segments = s.gps_segments ∧
    (gprmc s).2.sentence_active = s.sentence_active := by
  refine ⟨?_, ?_, ?_, ?_, ?_⟩ <;>
    (unfold gprmc
     repeat' (try dsimp only
              split)
     all_goals rfl)

theorem gpgll_frame (s : GPSState) :
    (gpgll s).2.clean_sentences = s.clean_sentences ∧
    (gpgll s).2.parsed_sentences = s.parsed_sentences ∧
    (gpgll s).2.crc_fails = s.crc_fails ∧
    (gpgll s).2.gps_segments = s.gps_segments ∧
    (gpgll s).2.sentence_active = s.sentence_active := by
  refine ⟨?_, ?_, ?_, ?_, ?_⟩ <;>
    (unfold gpgll
     repeat' (try dsimp only
              split)
     all_goals rfl)

theorem gpvtg_frame (s : GPSState) :
    (gpvtg s).2.clean_sentences = s.clean_sentences ∧
    (gpvtg s).2.parsed_sentences = s.parsed_sentences ∧
    (gpvtg s).2.crc_fails = s.crc_fails ∧
    (gpvtg s).2.gps_segments = s.gps_segments ∧
    (gpvtg s).2.sentence_active = s.sentence_active := by
  refine ⟨?_, ?_, ?_, ?_, ?_⟩ <;>
    (unfold gpvtg
     repeat' (try dsimp only
              split)
     all_goals rfl)

theorem gpgga_frame (s : GPSState) :
    (gpgga s).2.clean_sentences = s.clean_sentences ∧
    (gpgga s).2.parsed_sentences = s.parsed_sentences ∧
    (gpgga s).2.crc_fails = s.crc_fails ∧
    (gpgga s).2.gps_segments = s.gps_segments ∧
    (gpgga s).2.sentence_active = s.sentence_active := by
  refine ⟨?_, ?_, ?_, ?_, ?_⟩ <;>
    (unfold gpgga
     repeat' (try dsimp only
              split)
     all_goals rfl)

theorem gpgsa_frame (s : GPSState) :
    (gpgsa s).2.clean_sentences = s.clean_sentences ∧
    (gpgsa s).2.parsed_sentences = s.parsed_sentences ∧
    (gpgsa s).2.crc_fails = s.crc_fails ∧
    (gpgsa s).2.gps_segments = s.gps_segments ∧
    (gpgsa s).2.sentence_active = s.sentence_active := by
  refine ⟨?_, ?_, ?_, ?_, ?_⟩ <;>
    (unfold gpgsa
     repeat' (try dsimp only
              split)
     all_goals rfl)

theorem gpgsv_frame (s : GPSState) :
    (gpgsv s).2.clean_sentences = s.clean_sentences ∧
    (gpgsv s).2.parsed_sentences = s.parsed_sentences ∧
    (gpgsv s).2.crc_fails = s.crc_fails ∧
    (gpgsv s).2.gps_segments = s.gps_segments ∧
    (gpgsv s).2.sentence_active = s.sentence_active := by
  refine ⟨?_, ?_, ?_, ?_, ?_⟩ <;>
    (unfold gpgsv
     repeat' (try dsimp only
              split)
     all_goals rfl)

theorem lookup_cases (id0 : PStr) (d : GPSState → DecodeRes)
    (h : supportedLookup id0 = some d) :
    d = gprmc ∨ d = gpgll ∨ d = gpvtg ∨ d = gpgga ∨ d = gpgsa ∨ d = gpgsv := by
  unfold supportedLookup supported_sentences at h
  simp [List.lookup] at h
  repeat' split at h
  all_goals simp_all

theorem lookup_frame (id0 : PStr) (d : GPSState → DecodeRes) (s : GPSState)
    (h : supportedLookup id0 = some d) :
    (d s).2.clean_sentences = s.clean_sentences ∧
    (d s).2.parsed_sentences = s.parsed_sentences ∧
    (d s).2.crc_fails = s.crc_fails ∧
    (d s).2.gps_segments = s.gps_segments ∧
    (d s).2.sentence_active = s.sentence_active := by
  rcases lookup_cases id0 d h with rfl | rfl | rfl | rfl | rfl | rfl
  · exact gprmc_frame s
  · exact gpgll_frame s
  · exact gpvtg_frame s
  · exact gpgga_frame s
  · exact gpgsa_frame s
  · exact gpgsv_frame s

theorem get0_append' (p : List Nat) (x : PStr) (id0 : PStr)
    (h : (segsOf p)[0]? = some id0) : ((segsOf p) ++ [x])[0]? = some id0 := by
  rw [List.getElem?_append_left (by have := segsOf_length p; omega)]
  exact h

theorem cons_replicate_comm {α : Type} (a : α) (n : Nat) (L : List α) :
    a :: (List.replicate n a ++ L) = List.replicate n a ++ (a :: L) := by
  induction n with
  | zero => simp
  | succ m ih => simp [List.replicate_succ, ih]

theorem run_start (s : GPSState) (rest : List Nat) :
    runBytes s (36 :: rest)
      = ((runBytes (bodyState s []) rest).1,
         none :: (runBytes (bodyState s []) rest).2.1,
         (runBytes (bodyState s []) rest).2.2) := by
  simp [runBytes, update_dollar]

/-- Claim C2: feeding a complete well-formed sentence — `$`, a body of
printable non-reserved characters within the length limit, `*` and two hex
digits matching the XOR of the body — whose identifier is recognized and
whose decoder accepts it, yields the identifier exactly at the final byte
and `None` at every earlier byte, and increments both the clean-sentence
and parsed-sentence counters by one. -/
theorem spec_c2_wellformed_sentence (s : GPSState) (body : List Nat) (d1 d2 h1v h2v : Nat)
    (id0 : PStr) (d : GPSState → DecodeRes) (s4 : GPSState)
    (hb : ∀ c ∈ body, plainChar c) (hlen : body.length ≤ 88)
    (hd1 : hexDigit? d1 = some h1v) (hd2 : hexDigit? d2 = some h2v)
    (hcrc : h1v * 16 + h2v = xorOf body)
    (hid0 : (segsOf body)[0]? = some id0)
    (hlook : supportedLookup id0 = some d)
    (hdec : d (preDispatch s body d1 d2) = (.ok true, s4)) :
    runBytes s (mkSentence body d1 d2)
      = ({ s4 with parsed_sentences := s4.parsed_sentences + 1 },
         List.replicate (body.length + 3) none ++ [some id0], none)
    ∧ s4.clean_sentences = s.clean_sentences + 1
    ∧ s4.parsed_sentences = s.parsed_sentences := by
  have hframe := lookup_frame id0 d (preDispatch s body d1 d2) hlook
  rw [hdec] at hframe
  obtain ⟨hclean, hparsed, -, hsegs, -⟩ := hframe
  have hid0' : (preDispatch s body d1 d2).gps_segments[0]? = some id0 :=
    get0_append' body [d1, d2] id0 hid0
  have hs4 : s4.gps_segments[0]? = some id0 := by
    show s4.gps_segments[0]? = some id0
    rw [show s4.gps_segments = (preDispatch s body d1 d2).gps_segments from hsegs]
    exact hid0'
  have hdisp := dispatchValid_ok_true (preDispatch s body d1 d2) id0 id0 d s4 hid0' hlook hdec hs4
  have hd2step := update_d2_valid s body d1 d2 h1v h2v hd1 hd2 hcrc
  have h3 : runBytes (bodyState s body) [42, d1, d2]
      = ({ s4 with parsed_sentences := s4.parsed_sentences + 1 }, [none, none, some id0], none) := by
    simp [runBytes, update_star, update_d1 s body d1 (by simp [hd1]) (by omega), hd2step, hdisp]
  have h2 : runBytes (bodyState s []) (body ++ [42, d1, d2])
      = ({ s4 with parsed_sentences := s4.parsed_sentences + 1 },
         List.replicate body.length none ++ [none, none, some id0], none) := by
    rw [runBytes_append, run_body s body hb (by omega)]
    simp [h3]
  refine ⟨?_, ?_, ?_⟩
  · rw [show mkSentence body d1 d2 = 36 :: (body ++ [42, d1, d2]) from rfl, run_start, h2]
    simp [cons_replicate_comm, List.replicate_add,
          show List.replicate 3 (none : Option PStr) = [none, none, none] from rfl]
  · simpa [preDispatch, afterD1, afterStar, bodyState, newSentence] using hclean
  · simpa [preDispatch, afterD1, afterStar, bodyState, newSentence] using hparsed

/-- Claim C3: a complete sentence whose two checksum digits are valid hex
but do not equal the XOR of the body is discarded: the checksum-failure
counter increments by one, every byte yields `None`, no exception is
raised, and no data field or other statistics counter changes. -/
theorem spec_c3_checksum_mismatch (s : GPSState) (body : List Nat) (d1 d2 h1v h2v : Nat)
    (hb : ∀ c ∈ body, plainChar c) (hlen : body.length ≤ 88)
    (hd1 : hexDigit? d1 = some h1v) (hd2 : hexDigit? d2 = some h2v)
    (hne : h1v * 16 + h2v ≠ xorOf body) :
    runBytes s (mkSentence body d1 d2)
      = (postMismatch s body d1 d2, List.replicate (body.length + 4) none, none)
    ∧ (postMismatch s body d1 d2).crc_fails = s.crc_fails + 1
    ∧ (postMismatch s body d1 d2).timestamp = s.timestamp
    ∧ (postMismatch s body d1 d2).date = s.date
    ∧ (postMismatch s body d1 d2).latitude = s.latitude
    ∧ (postMismatch s body d1 d2).longitude = s.longitude
    ∧ (postMismatch s body d1 d2).valid = s.valid
    ∧ (postMismatch s body d1 d2).fix_type = s.fix_type
    ∧ (postMismatch s body d1 d2).satellites_in_view = s.satellites_in_view
    ∧ (postMismatch s body d1 d2).satellites_in_use = s.satellites_in_use
    ∧ (postMismatch s body d1 d2).clean_sentences = s.clean_sentences
    ∧ (postMismatch s body d1 d2).parsed_sentences = s.parsed_sentences := by
  have hd2step := update_d2_mismatch s body d1 d2 h1v h2v hd1 hd2 hne
  have h3 : runBytes (bodyState s body) [42, d1, d2]
      = (postMismatch s body d1 d2, [none, none, none], none) := by
    simp [runBytes, update_star, update_d1 s body d1 (by simp [hd1]) (by omega), hd2step]
  have h2 : runBytes (bodyState s []) (body ++ [42, d1, d2])
      = (postMismatch s body d1 d2,
         List.replicate body.length none ++ [none, none, none], none) := by
    rw [runBytes_append, run_body s body hb (by omega)]
    simp [h3]
  refine ⟨?_, ?_, ?_, ?_, ?_, ?_, ?_, ?_, ?_, ?_, ?_, ?_⟩
  · rw [show mkSentence body d1 d2 = 36 :: (body ++ [42, d1, d2]) from rfl, run_start, h2]
    simp [cons_replicate_comm, List.replicate_add,
          show List.replicate 4 (none : Option PStr) = [none, none, none, none] from rfl]
  all_goals simp [postMismatch, afterD1, afterStar, bodyState, newSentence]

theorem run_unknown_identifier (s : GPSState) (body : List Nat) (d1 d2 h1v h2v : Nat) (id0 : PStr)
    (hb : ∀ c ∈ body, plainChar c) (hlen : body.length ≤ 88)
    (hd1 : hexDigit? d1 = some h1v) (hd2 : hexDigit? d2 = some h2v)
    (hcrc : h1v * 16 + h2v = xorOf body)
    (hid0 : (segsOf body)[0]? = some id0)
    (hlook : supportedLookup id0 = none) :
    runBytes s (mkSentence body d1 d2)
      = (preDispatch s body d1 d2, List.replicate (body.length + 4) none, none)
    ∧ (preDispatch s body d1 d2).clean_sentences = s.clean_sentences + 1
    ∧ (preDispatch s body d1 d2).parsed_sentences = s.parsed_sentences
    ∧ (preDispatch s body d1 d2).crc_fails = s.crc_fails
    ∧ (preDispatch s body d1 d2).timestamp = s.timestamp
    ∧ (preDispatch s body d1 d2).date = s.date
    ∧ (preDispatch s body d1 d2).latitude = s.latitude
    ∧ (preDispatch s body d1 d2).longitude = s.longitude
    ∧ (preDispatch s body d1 d2).valid = s.valid
    ∧ (preDispatch s body d1 d2).fix_type = s.fix_type
    ∧ (preDispatch s body d1 d2).satellites_in_view = s.satellites_in_view
    ∧ (preDispatch s body d1 d2).satellites_in_use = s.satellites_in_use := by
  have hid0' : (preDispatch s body d1 d2).gps_segments[0]? = some id0 :=
    get0_append' body [d1, d2] id0 hid0
  have hdisp := dispatchValid_none (preDispatch s body d1 d2) id0 hid0' hlook rfl
  have hd2step := update_d2_valid s body d1 d2 h1v h2v hd1 hd2 hcrc
  have h3 : runBytes (bodyState s body) [42, d1, d2]
      = (preDispatch s body d1 d2, [none, none, none], none) := by
    simp [runBytes, update_star, update_d1 s body d1 (by simp [hd1]) (by omega), hd2step, hdisp]
  have h2 : runBytes (bodyState s []) (body ++ [42, d1, d2])
      = (preDispatch s body d1 d2,
         List.replicate body.length none ++ [none, none, none], none) := by
    rw [runBytes_append, run_body s body hb (by omega)]
    simp [h3]
  refine ⟨?_, ?_, ?_, ?_, ?_, ?_, ?_, ?_, ?_, ?_, ?_, ?_⟩
  · rw [show mkSentence body d1 d2 = 36 :: (body ++ [42, d1, d2]) from rfl, run_start, h2]
    simp [cons_replicate_comm, List.replicate_add,
          show List.replicate 4 (none : Option PStr) = [none, none, none, none] from rfl]
  all_goals simp [preDispatch, afterD1, afterStar, bodyState, newSentence]

theorem gprmc_timestamp (st : GPSState) (utc : PStr) (hh mm : Int) (sec : PyFloat)
    (h1 : st.gps_segments.get? 1 = some utc) (hutc : utc ≠ [])
    (hhh : pyInt (utc.take 2) = some hh)
    (hmm2 : pyInt ((utc.drop 2).take 2) = some mm)
    (hsec : pyFloat (utc.drop 4) = some sec) :
    (gprmc st).2.timestamp = ((hh + st.local_offset) % 24, mm, sec) := by
  unfold gprmc
  rw [h1]
  simp only [hutc, hhh, hmm2, hsec, ne_eq, not_false_iff, if_true, ite_true]
  repeat' (try dsimp only
           split)
  all_goals rfl

theorem gprmc_halfway (st : GPSState) (utc dstr : PStr) (hh mm : Int) (sec : PyFloat)
    (h1 : st.gps_segments.get? 1 = some utc) (hutc : utc ≠ [])
    (hhh : pyInt (utc.take 2) = some hh)
    (hmm2 : pyInt ((utc.drop 2).take 2) = some mm)
    (hsec : pyFloat (utc.drop 4) = some sec)
    (h9 : st.gps_segments.get? 9 = some dstr) (hd : dstr ≠ [])
    (hfail : pyInt (dstr.take 2) = none ∨ pyInt ((dstr.drop 2).take 2) = none ∨
             pyInt ((dstr.drop 4).take 2) = none) :
    gprmc st = (.ok false, { st with timestamp := ((hh + st.local_offset) % 24, mm, sec) }) := by
  unfold gprmc
  rw [h1]
  simp only [hutc, hhh, hmm2, hsec, ne_eq, not_false_iff, if_true, ite_true]
  simp only [h9]
  rcases hpa : pyInt (dstr.take 2) with - | va <;>
    rcases hpb : pyInt ((dstr.drop 2).take 2) with - | vb <;>
      rcases hpc : pyInt ((dstr.drop 4).take 2) with - | vc <;>
        simp_all

theorem gprmc_hemi (st : GPSState) (h : HemiInv st) : HemiInv (gprmc st).2 := by
  unfold gprmc
  repeat' (try dsimp only
           split)
  all_goals
    first
      | exact h
      | exact ⟨by decide, by decide⟩
      | (refine ⟨?_, ?_⟩ <;> tauto)

theorem gpgll_hemi (st : GPSState) (h : HemiInv st) : HemiInv (gpgll st).2 := by
  unfold gpgll
  repeat' (try dsimp only
           split)
  all_goals
    first
      | exact h
      | exact ⟨by decide, by decide⟩
      | (refine ⟨?_, ?_⟩ <;> tauto)

theorem gpvtg_hemi (st : GPSState) (h : HemiInv st) : HemiInv (gpvtg st).2 := by
  unfold gpvtg
  repeat' (try dsimp only
           split)
  all_goals
    first
      | exact h
      | exact ⟨by decide, by decide⟩
      | (refine ⟨?_, ?_⟩ <;> tauto)

theorem gpgga_hemi (st : GPSState) (h : HemiInv st) : HemiInv (gpgga st).2 := by
  unfold gpgga
  repeat' (try dsimp only
           split)
  all_goals
    first
      | exact h
      | exact ⟨by decide, by decide⟩
      | (refine ⟨?_, ?_⟩ <;> tauto)

theorem gpgsa_hemi (st : GPSState) (h : HemiInv st) : HemiInv (gpgsa st).2 := by
  unfold gpgsa
  repeat' (try dsimp only
           split)
  all_goals
    first
      | exact h
      | exact ⟨by decide, by decide⟩
      | (refine ⟨?_, ?_⟩ <;> tauto)

theorem gpgsv_hemi (st : GPSState) (h : HemiInv st) : HemiInv (gpgsv st).2 := by
  unfold gpgsv
  repeat' (try dsimp only
           split)
  all_goals
    first
      | exact h
      | exact ⟨by decide, by decide⟩
      | (refine ⟨?_, ?_⟩ <;> tauto)

theorem decoder_hemi (id0 : PStr) (d : GPSState → DecodeRes)
    (hl : supportedLookup id0 = some d) (st : GPSState) (h : HemiInv st) :
    HemiInv (d st).2 := by
  rcases lookup_cases id0 d hl with rfl | rfl | rfl | rfl | rfl | rfl
  exacts [gprmc_hemi st h, gpgll_hemi st h, gpvtg_hemi st h, gpgga_hemi st h,
          gpgsa_hemi st h, gpgsv_hemi st h]

theorem endCheck_hemi (st : GPSState) (h : HemiInv st) : HemiInv (endCheck st).2 := by
  unfold endCheck
  split <;> simpa [HemiInv] using h

theorem dispatchValid_hemi (s3 : GPSState) (h : HemiInv s3) : HemiInv (dispatchValid s3).2 := by
  unfold dispatchValid
  split
  · exact h
  · next id0 hid0 =>
    split
    · next d hl =>
      split
      · next e s4 heq =>
        have := decoder_hemi id0 d hl s3 h
        rw [heq] at this
        exact this
      · next s4 heq =>
        have h4 : HemiInv s4 := by
          have := decoder_hemi id0 d hl s3 h
          rw [heq] at this
          exact this
        dsimp only
        split
        · simpa [HemiInv] using h4
        · simpa [HemiInv] using h4
      · next s4 heq =>
        have h4 : HemiInv s4 := by
          have := decoder_hemi id0 d hl s3 h
          rw [heq] at this
          exact this
        exact endCheck_hemi s4 h4
    · exact endCheck_hemi s3 h

theorem finishChar_hemi (c : Nat) (v : Bool) (s1 : GPSState) (h : HemiInv s1) :
    HemiInv (finishChar c v s1).2 := by
  unfold finishChar
  have h2 : HemiInv (if s1.process_crc then { s1 with crc_xor := s1.crc_xor ^^^ c } else s1) := by
    split <;> simpa [HemiInv] using h
  cases v with
  | false => simpa using endCheck_hemi _ h2
  | true =>
    refine dispatchValid_hemi _ ?_
    simpa [HemiInv] using h2

theorem update_hemi (s : GPSState) (c : Nat) (h : HemiInv s) : HemiInv (update s c).2 := by
  unfold update
  repeat' (try dsimp only
           split)
  all_goals
    first
      | simpa [HemiInv, newSentence] using h
      | (apply finishChar_hemi; simpa [HemiInv] using h)

theorem runBytes_hemi (s : GPSState) (bs : List Nat) (h : HemiInv s) :
    HemiInv (runBytes s bs).1 := by
  induction bs generalizing s with
  | nil => simpa [runBytes] using h
  | cons b rest ih =>
    have hb := update_hemi s b h
    rcases hu : update s b with ⟨r, s'⟩
    rw [hu] at hb
    cases r with
    | error e => simpa [runBytes, hu] using hb
    | ok o =>
      have := ih s' hb
      simpa [runBytes, hu] using this

theorem pyAppendAt_some_length (l : List PStr) (i c : Nat) (l2 : List PStr) (seg : PStr)
    (h : pyAppendAt l i c = some (l2, seg)) : l2.length = l.length := by
  unfold pyAppendAt at h
  split at h
  · cases h
  · next x heq =>
    cases h
    simp

theorem endCheck_seginv (st : GPSState) (h : SegInv st) : SegInv (endCheck st).2 := by
  unfold endCheck
  split
  · simp [SegInv]
  · exact h

theorem dispatchValid_seginv (s3 : GPSState) (hsa : s3.sentence_active = false) :
    SegInv (dispatchValid s3).2 := by
  unfold dispatchValid
  split
  · simp [SegInv, hsa]
  · next id0 hid0 =>
    split
    · next d hl =>
      have hfr := (lookup_frame id0 d s3 hl).2.2.2.2
      split
      · next e s4 heq =>
        rw [heq] at hfr
        simp [hsa] at hfr
        simp [SegInv, hfr]
      · next s4 heq =>
        rw [heq] at hfr
        simp [hsa] at hfr
        dsimp only
        split
        · simp [SegInv, hfr]
        · simp [SegInv, hfr]
      · next s4 heq =>
        rw [heq] at hfr
        simp [hsa] at hfr
        apply endCheck_seginv
        simp [SegInv, hfr]
    · exact endCheck_seginv s3 (by simp [SegInv, hsa])

theorem finishChar_seginv (c : Nat) (v : Bool) (s1 : GPSState) (h : SegInv s1) :
    SegInv (finishChar c v s1).2 := by
  unfold finishChar
  have h2 : SegInv (if s1.process_crc then { s1 with crc_xor := s1.crc_xor ^^^ c } else s1) := by
    split <;> exact h
  cases v with
  | false => exact endCheck_seginv _ h2
  | true => exact dispatchValid_seginv _ rfl

theorem update_seginv (s : GPSState) (c : Nat) (h : SegInv s) : SegInv (update s c).2 := by
  unfold update
  split
  · dsimp only
    split
    · -- the `$` branch: new_sentence
      intro hx
      rfl
    · split
      · -- sentence_active
        split
        · -- the `*` branch
          intro hx
          have hs := h (by simpa using hx)
          simp [hs]
        · split
          · -- the `,` branch
            apply finishChar_seginv
            intro hx
            have hs := h (by simpa using hx)
            simp [hs]
          · -- ordinary character: segment append
            split
            · -- IndexError: state unchanged apart from char_count
              intro hx
              have hs := h (by simpa using hx)
              simpa using hs
            · next segs seg heq =>
              have hlen2 := pyAppendAt_some_length _ _ _ _ _ heq
              have hstep : SegInv
                  { s with char_count := s.char_count + 1, gps_segments := segs } := by
                intro hx
                have hs := h (by simpa using hx)
                simp [hlen2, hs]
              split
              · exact finishChar_seginv _ _ _ hstep
              · split
                · split
                  · split
                    · exact finishChar_seginv _ _ _ hstep
                    · exact finishChar_seginv _ _ _ hstep
                  · exact finishChar_seginv _ _ _ hstep
                · exact finishChar_seginv _ _ _ hstep
      · -- no active sentence
        exact h
  · exact h

theorem finishChar_false_ok (c : Nat) (s1 : GPSState) :
    (finishChar c false s1).1 = .ok none := by
  unfold finishChar endCheck
  repeat' (try dsimp only
           split)
  all_goals first
    | rfl
    | simp_all

theorem dispatchValid_ok_of_lookup_none (s3 : GPSState) (id0 : PStr)
    (hid : s3.gps_segments.get? 0 = some id0)
    (hl : supportedLookup id0 = none) :
    (dispatchValid s3).1 = .ok none := by
  unfold dispatchValid
  rw [hid]
  simp only [hl]
  unfold endCheck
  split <;> rfl

theorem finishChar_true_noCrc (c : Nat) (s1 : GPSState) (h : s1.process_crc = false) :
    finishChar c true s1
      = dispatchValid { s1 with clean_sentences := s1.clean_sentences + 1,
                                sentence_active := false } := by
  unfold finishChar
  dsimp only
  split
  · split
    · next hp => simp [hp] at h
    · rfl
  · next hv => exact absurd rfl hv

theorem update_ok_of_no_dispatch (s : GPSState) (c : Nat)
    (hinv : SegInv s) (hnd : dispatchesDecoder s c = false) :
    ∃ o, (update s c).1 = .ok o := by
  unfold update
  split
  · next hrange =>
    dsimp only
    split
    · exact ⟨none, rfl⟩
    · next h36 =>
      split
      · next hact =>
        have hact' : s.sentence_active = true := by simpa using hact
        split
        · exact ⟨none, rfl⟩
        · next h42 =>
          split
          · exact ⟨none, finishChar_false_ok _ _⟩
          · next h44 =>
            split
            · next happ =>
              exfalso
              have hs := hinv hact'
              unfold pyAppendAt at happ
              rcases hg : s.gps_segments.get? s.active_segment with - | x
              · rw [List.get?_eq_none] at hg
                omega
              · rw [hg] at happ
                cases happ
            · next segs seg happ =>
              have hlen2 := pyAppendAt_some_length _ _ _ _ _ happ
              split
              · exact ⟨none, finishChar_false_ok _ _⟩
              · next hcrcflag =>
                have hcrcflag' : s.process_crc = false := by simpa using hcrcflag
                split
                · next hseglen =>
                  split
                  · next v hhex =>
                    split
                    · next hcrceq =>
                      -- dispatch path: dispatchesDecoder must have been true
                      have hs := hinv hact'
                      rcases hg0 : segs.get? 0 with - | id0
                      · exfalso
                        rw [List.get?_eq_none] at hg0
                        omega
                      · rcases hsl : supportedLookup id0 with - | d
                        · refine ⟨none, ?_⟩
                          rw [finishChar_true_noCrc c _ (by simpa using hcrcflag)]
                          exact dispatchValid_ok_of_lookup_none _ id0 hg0 hsl
                        · exfalso
                          unfold dispatchesDecoder at hnd
                          rw [if_pos hrange, if_neg h36, if_pos hact',
                              if_neg h42, if_neg h44, happ] at hnd
                          simp only [hcrcflag', hseglen, hhex, hg0, hsl,
                                     Bool.false_eq_true, if_false] at hnd
                          simp at hnd
                          exact hnd (by simpa using hcrceq)
                    · exact ⟨none, finishChar_false_ok _ _⟩
                  · exact ⟨none, finishChar_false_ok _ _⟩
                · exact ⟨none, finishChar_false_ok _ _⟩
      · exact ⟨none, rfl⟩
  · exact ⟨none, rfl⟩

theorem beq_self (a : PyFloat) : a.beq a = true := by
  simp [PyFloat.beq]

theorem latdec_frame (r : ReaderState) :
    (latitude_decimal r).2.gps = r.gps ∧
    (latitude_decimal r).2.has_ever_had_fix = r.has_ever_had_fix ∧
    (latitude_decimal r).2.lon_mins = r.lon_mins ∧
    (latitude_decimal r).2.lon_dec = r.lon_dec ∧
    (latitude_decimal r).2.cached_mh_lat = r.cached_mh_lat ∧
    (latitude_decimal r).2.cached_mh_lon = r.cached_mh_lon ∧
    (latitude_decimal r).2.cached_mh = r.cached_mh ∧
    (latitude_decimal r).2.cached_utm_lat = r.cached_utm_lat ∧
    (latitude_decimal r).2.cached_utm_lon = r.cached_utm_lon ∧
    (latitude_decimal r).2.cached_utm = r.cached_utm := by
  refine ⟨?_, ?_, ?_, ?_, ?_, ?_, ?_, ?_, ?_, ?_⟩ <;>
    (unfold latitude_decimal
     repeat' (try dsimp only
              split)
     all_goals simp)

theorem londec_frame (r : ReaderState) :
    (longitude_decimal r).2.gps = r.gps ∧
    (longitude_decimal r).2.has_ever_had_fix = r.has_ever_had_fix ∧
    (longitude_decimal r).2.lat_mins = r.lat_mins ∧
    (longitude_decimal r).2.lat_dec = r.lat_dec ∧
    (longitude_decimal r).2.cached_mh_lat = r.cached_mh_lat ∧
    (longitude_decimal r).2.cached_mh_lon = r.cached_mh_lon ∧
    (longitude_decimal r).2.cached_mh = r.cached_mh ∧
    (longitude_decimal r).2.cached_utm_lat = r.cached_utm_lat ∧
    (longitude_decimal r).2.cached_utm_lon = r.cached_utm_lon ∧
    (longitude_decimal r).2.cached_utm = r.cached_utm := by
  refine ⟨?_, ?_, ?_, ?_, ?_, ?_, ?_, ?_, ?_, ?_⟩ <;>
    (unfold longitude_decimal
     repeat' (try dsimp only
              split)
     all_goals simp)

theorem latdec_post (r : ReaderState) :
    neqOpt (latitude_decimal r).2.gps.latitude.2.1 (latitude_decimal r).2.lat_mins = false ∧
    (latitude_decimal r).2.lat_dec = (latitude_decimal r).1 := by
  refine ⟨?_, ?_⟩ <;>
    (unfold latitude_decimal
     dsimp only
     split
     · simp [neqOpt, beq_self]
     · next hc =>
       simp at hc
       simp [hc])

theorem londec_post (r : ReaderState) :
    neqOpt (longitude_decimal r).2.gps.longitude.2.1 (longitude_decimal r).2.lon_mins = false ∧
    (longitude_decimal r).2.lon_dec = (longitude_decimal r).1 := by
  refine ⟨?_, ?_⟩ <;>
    (unfold longitude_decimal
     dsimp only
     split
     · simp [neqOpt, beq_self]
     · next hc =>
       simp at hc
       simp [hc])

theorem latdec_of_cached (r : ReaderState)
    (h : neqOpt r.gps.latitude.2.1 r.lat_mins = false) :
    latitude_decimal r = (r.lat_dec, r) := by
  unfold latitude_decimal
  dsimp only
  rw [if_neg (by simp [h])]

theorem londec_of_cached (r : ReaderState)
    (h : neqOpt r.gps.longitude.2.1 r.lon_mins = false) :
    longitude_decimal r = (r.lon_dec, r) := by
  unfold longitude_decimal
  dsimp only
  rw [if_neg (by simp [h])]

theorem mh_unfold (r : ReaderState) (hf : ¬ r.has_ever_had_fix = false)
    (lat lon : PyFloat) (r1 r2 : ReaderState)
    (h1 : latitude_decimal r = (lat, r1)) (h2 : longitude_decimal r1 = (lon, r2)) :
    maidenhead r =
      (if eqOpt lat r2.cached_mh_lat && eqOpt lon r2.cached_mh_lon then
        (r2.cached_mh, r2)
      else
        (mhCompute lat lon,
         { r2 with cached_mh_lat := some lat, cached_mh_lon := some lon,
                   cached_mh := mhCompute lat lon })) := by
  unfold maidenhead
  rw [if_neg hf, h1]
  dsimp only
  rw [h2]

theorem maidenhead_spec (r : ReaderState) :
    maidenhead (maidenhead r).2 = ((maidenhead r).1, (maidenhead r).2) ∧
    (r.has_ever_had_fix = true → (maidenhead r).1 = (maidenhead r).2.cached_mh) ∧
    (r.has_ever_had_fix = false → maidenhead r = ("------", r)) := by
  by_cases hf : r.has_ever_had_fix = false
  · have h1 : maidenhead r = ("------", r) := by
      unfold maidenhead
      rw [if_pos hf]
    refine ⟨?_, ?_, fun _ => h1⟩
    · rw [h1]
      exact h1
    · intro ht
      rw [ht] at hf
      cases hf
  · have hft : r.has_ever_had_fix = true := by
      revert hf
      cases r.has_ever_had_fix <;> simp
    rcases h1 : latitude_decimal r with ⟨lat, r1⟩
    rcases h2 : longitude_decimal r1 with ⟨lon, r2⟩
    have hp := latdec_post r
    rw [h1] at hp
    have hq := londec_post r1
    rw [h2] at hq
    have hfr1 := latdec_frame r
    rw [h1] at hfr1
    have hfr2 := londec_frame r1
    rw [h2] at hfr2
    have hlat2 : neqOpt r2.gps.latitude.2.1 r2.lat_mins = false := by
      have e1 : r2.gps = r1.gps := hfr2.1
      have e2 : r2.lat_mins = r1.lat_mins := hfr2.2.2.1
      rw [e1, e2]
      exact hp.1
    have hlatval : r2.lat_dec = lat := by
      have e : r2.lat_dec = r1.lat_dec := hfr2.2.2.2.1
      rw [e]
      exact hp.2
    have hlon2 : neqOpt r2.gps.longitude.2.1 r2.lon_mins = false := hq.1
    have hlonval : r2.lon_dec = lon := hq.2
    have hfix2 : r2.has_ever_had_fix = true := by
      have e1 : r2.has_ever_had_fix = r1.has_ever_had_fix := hfr2.2.1
      have e2 : r1.has_ever_had_fix = r.has_ever_had_fix := hfr1.2.1
      rw [e1, e2]
      exact hft
    have hnf2 : ¬ r2.has_ever_had_fix = false := by simp [hfix2]
    have hmh := mh_unfold r hf lat lon r1 r2 h1 h2
    by_cases hc : (eqOpt lat r2.cached_mh_lat && eqOpt lon r2.cached_mh_lon) = true
    · rw [if_pos hc] at hmh
      have hld2 : latitude_decimal r2 = (lat, r2) := by
        rw [latdec_of_cached r2 hlat2, hlatval]
      have hlo2 : longitude_decimal r2 = (lon, r2) := by
        rw [londec_of_cached r2 hlon2, hlonval]
      refine ⟨?_, ?_, ?_⟩
      · rw [hmh]
        rw [mh_unfold r2 hnf2 lat lon r2 r2 hld2 hlo2, if_pos hc]
      · intro _
        rw [hmh]
      · intro hff
        rw [hff] at hft
        cases hft
    · rw [if_neg hc] at hmh
      refine ⟨?_, ?_, ?_⟩
      · rw [hmh]
        set r2c : ReaderState :=
          { r2 with cached_mh_lat := some lat, cached_mh_lon := some lon,
                    cached_mh := mhCompute lat lon } with hr2c
        have hld2 : latitude_decimal r2c = (lat, r2c) := by
          rw [latdec_of_cached r2c (by simpa [hr2c] using hlat2)]
          simp [hr2c, hlatval]
        have hlo2 : longitude_decimal r2c = (lon, r2c) := by
          rw [londec_of_cached r2c (by simpa [hr2c] using hlon2)]
          simp [hr2c, hlonval]
        rw [mh_unfold r2c (by simp [hr2c, hfix2]) lat lon r2c r2c hld2 hlo2]
        rw [if_pos (by simp [hr2c, eqOpt, beq_self])]
      · intro _
        rw [hmh]
      · intro hff
        rw [hff] at hft
        cases hft

theorem utm_unfold (T : TrigModel) (r : ReaderState) (hf : ¬ r.has_ever_had_fix = false)
    (lat lon : PyFloat) (r1 r2 : ReaderState)
    (h1 : latitude_decimal r = (lat, r1)) (h2 : longitude_decimal r1 = (lon, r2)) :
    utm T r =
      (if eqOpt lat r2.cached_utm_lat && eqOpt lon r2.cached_utm_lon then
        (r2.cached_utm, r2)
      else
        (utmCompute T lat lon,
         { r2 with cached_utm_lat := some lat, cached_utm_lon := some lon,
                   cached_utm := utmCompute T lat lon })) := by
  unfold utm
  rw [if_neg hf, h1]
  dsimp only
  rw [h2]

theorem utm_spec (T : TrigModel) (r : ReaderState) :
    utm T (utm T r).2 = ((utm T r).1, (utm T r).2) ∧
    (r.has_ever_had_fix = true → (utm T r).1 = (utm T r).2.cached_utm) ∧
    (r.has_ever_had_fix = false → utm T r = ("-- --E --N", r)) := by
  by_cases hf : r.has_ever_had_fix = false
  · have h1 : utm T r = ("-- --E --N", r) := by
      unfold utm
      rw [if_pos hf]
    refine ⟨?_, ?_, fun _ => h1⟩
    · rw [h1]
      exact h1
    · intro ht
      rw [ht] at hf
      cases hf
  · have hft : r.has_ever_had_fix = true := by
      revert hf
      cases r.has_ever_had_fix <;> simp
    rcases h1 : latitude_decimal r with ⟨lat, r1⟩
    rcases h2 : longitude_decimal r1 with ⟨lon, r2⟩
    have hp := latdec_post r
    rw [h1] at hp
    have hq := londec_post r1
    rw [h2] at hq
    have hfr1 := latdec_frame r
    rw [h1] at hfr1
    have hfr2 := londec_frame r1
    rw [h2] at hfr2
    have hlat2 : neqOpt r2.gps.latitude.2.1 r2.lat_mins = false := by
      have e1 : r2.gps = r1.gps := hfr2.1
      have e2 : r2.lat_mins = r1.lat_mins := hfr2.2.2.1
      rw [e1, e2]
      exact hp.1
    have hlatval : r2.lat_dec = lat := by
      have e : r2.lat_dec = r1.lat_dec := hfr2.2.2.2.1
      rw [e]
      exact hp.2
    have hlon2 : neqOpt r2.gps.longitude.2.1 r2.lon_mins = false := hq.1
    have hlonval : r2.lon_dec = lon := hq.2
    have hfix2 : r2.has_ever_had_fix = true := by
      have e1 : r2.has_ever_had_fix = r1.has_ever_had_fix := hfr2.2.1
      have e2 : r1.has_ever_had_fix = r.has_ever_had_fix := hfr1.2.1
      rw [e1, e2]
      exact hft
    have hnf2 : ¬ r2.has_ever_had_fix = false := by simp [hfix2]
    have hmh := utm_unfold T r hf lat lon r1 r2 h1 h2
    by_cases hc : (eqOpt lat r2.cached_utm_lat && eqOpt lon r2.cached_utm_lon) = true
    · rw [if_pos hc] at hmh
      have hld2 : latitude_decimal r2 = (lat, r2) := by
        rw [latdec_of_cached r2 hlat2, hlatval]
      have hlo2 : longitude_decimal r2 = (lon, r2) := by
        rw [londec_of_cached r2 hlon2, hlonval]
      refine ⟨?_, ?_, ?_⟩
      · rw [hmh]
        rw [utm_unfold T r2 hnf2 lat lon r2 r2 hld2 hlo2, if_pos hc]
      · intro _
        rw [hmh]
      · intro hff
        rw [hff] at hft
        cases hft
    · rw [if_neg hc] at hmh
      refine ⟨?_, ?_, ?_⟩
      · rw [hmh]
        set r2c : ReaderState :=
          { r2 with cached_utm_lat := some lat, cached_utm_lon := some lon,
                    cached_utm := utmCompute T lat lon } with hr2c
        have hld2 : latitude_decimal r2c = (lat, r2c) := by
          rw [latdec_of_cached r2c (by simpa [hr2c] using hlat2)]
          simp [hr2c, hlatval]
        have hlo2 : longitude_decimal r2c = (lon, r2c) := by
          rw [londec_of_cached r2c (by simpa [hr2c] using hlon2)]
          simp [hr2c, hlonval]
        rw [utm_unfold T r2c (by simp [hr2c, hfix2]) lat lon r2c r2c hld2 hlo2]
        rw [if_pos (by simp [hr2c, eqOpt, beq_self])]
      · intro _
        rw [hmh]
      · intro hff
        rw [hff] at hft
        cases hft

theorem getq_append_left {α : Type} (l l2 : List α) (i : Nat) (x : α)
    (h : l.get? i = some x) : (l ++ l2).get? i = some x := by
  have hi : i < l.length := by
    by_contra hc
    rw [List.get?_eq_none.mpr (by omega)] at h
    cases h
  rw [List.get?_eq_getElem?] at h ⊢
  rw [List.getElem?_append_left hi]
  exact h

theorem lookup_isSome_keys {β : Type} (l : List (PStr × β)) (a : PStr) :
    (l.lookup a).isSome ↔ a ∈ l.map Prod.fst := by
  induction l with
  | nil => simp [List.lookup]
  | cons x t ih =>
    rcases x with ⟨k, v⟩
    by_cases h : a = k
    · simp [List.lookup, h]
    · have hb : (a == k) = false := by simp [h]
      simp [List.lookup, hb, ih, h]

theorem val_ofInt (n : Int) : (PyFloat.ofInt n).val = (n : ℚ) := by
  simp [PyFloat.ofInt, PyFloat.val]

theorem val_neg (a : PyFloat) : (-a).val = -a.val := by
  show (PyFloat.neg a).val = -a.val
  simp [PyFloat.neg, PyFloat.val]
  ring

theorem val_add (a b : PyFloat) (ha : a.den ≠ 0) (hb : b.den ≠ 0) :
    (a + b).val = a.val + b.val := by
  show (PyFloat.add a b).val = _
  unfold PyFloat.add PyFloat.val
  have ha' : (a.den : ℚ) ≠ 0 := by exact_mod_cast ha
  have hb' : (b.den : ℚ) ≠ 0 := by exact_mod_cast hb
  field_simp

theorem val_div_sixty (m : PyFloat) (hm : 0 < m.den) :
    (m / (⟨60, 1⟩ : PyFloat)).val = m.val / 60 := by
  show (PyFloat.div m ⟨60, 1⟩).val = _
  unfold PyFloat.div PyFloat.val
  have hd : ¬ (m.den * 60 < 0) := by omega
  have hm' : (m.den : ℚ) ≠ 0 := by
    intro hc
    rw [Int.cast_eq_zero] at hc
    omega
  simp only [hd, if_false]
  push_cast
  field_simp

theorem div_sixty_den (m : PyFloat) (hm : 0 < m.den) :
    (m / (⟨60, 1⟩ : PyFloat)).den = m.den * 60 := by
  show (PyFloat.div m ⟨60, 1⟩).den = _
  unfold PyFloat.div
  dsimp only
  rw [if_neg (by omega)]

theorem val_deg_min (d : Int) (m : PyFloat) (hm : 0 < m.den) :
    (PyFloat.ofInt d + m / (⟨60, 1⟩ : PyFloat)).val = (d : ℚ) + m.val / 60 := by
  rw [val_add _ _ (by simp [PyFloat.ofInt]) (by rw [div_sixty_den m hm]; omega),
      val_ofInt, val_div_sixty m hm]

/-- Claim C7: the decimal-coordinate accessors compute decimal = degrees +
minutes/60, negated when the hemisphere is S (latitude) or W (longitude);
the spec's concrete instances are checked in the witness. -/
theorem spec_c7_decimal_conversion (r : ReaderState) :
    (neqOpt r.gps.latitude.2.1 r.lat_mins = true → 0 < r.gps.latitude.2.1.den →
      ((latitude_decimal r).1).val
        = (if r.gps.latitude.2.2 = cs "S" then -1 else 1)
            * ((r.gps.latitude.1 : ℚ) + (r.gps.latitude.2.1).val / 60))
    ∧ (neqOpt r.gps.longitude.2.1 r.lon_mins = true → 0 < r.gps.longitude.2.1.den →
      ((longitude_decimal r).1).val
        = (if r.gps.longitude.2.2 = cs "W" then -1 else 1)
            * ((r.gps.longitude.1 : ℚ) + (r.gps.longitude.2.1).val / 60)) := by
  constructor
  · intro hmiss hden
    unfold latitude_decimal
    rw [if_pos hmiss]
    dsimp only
    split
    · rw [val_neg, val_deg_min _ _ hden]
      ring
    · rw [val_deg_min _ _ hden]
      ring
  · intro hmiss hden
    unfold longitude_decimal
    rw [if_pos hmiss]
    dsimp only
    split
    · rw [val_neg, val_deg_min _ _ hden]
      ring
    · rw [val_deg_min _ _ hden]
      ring

/-- Witness for C7 at the spec's example coordinates: raw latitude
(40°, 42.768′, N) gives 40.7128 and raw longitude (74°, 0.360′, W) gives
-74.0060. -/
theorem spec_c7_witness :
    ((latitude_decimal c7Reader).1).val = 40.7128
    ∧ ((longitude_decimal c7Reader).1).val = -74.0060 := by
  obtain ⟨hlat, hlon⟩ := spec_c7_decimal_conversion c7Reader
  constructor
  · rw [hlat (by decide) (by decide), if_neg (by decide)]
    norm_num [c7Reader, initReader, initState, PyFloat.val]
  · rw [hlon (by decide) (by decide), if_pos (by decide)]
    norm_num [c7Reader, initReader, initState, PyFloat.val]

/-- Claim C5 (amended): the stored timestamp is the sentence's UTC time
shifted by the parser's configured `local_offset` hours modulo 24; two
parsers agree on the stored timestamp iff their offsets agree modulo 24
(in particular, for the default offset 0 the timestamp is the raw UTC
time). -/
theorem spec_c5_amended (s1 s2 : GPSState) (utc : PStr) (hh mm : Int) (sec : PyFloat)
    (hs1 : s1.gps_segments.get? 1 = some utc)
    (hs2 : s2.gps_segments.get? 1 = some utc)
    (hutc : utc ≠ [])
    (hhh : pyInt (utc.take 2) = some hh)
    (hmm2 : pyInt ((utc.drop 2).take 2) = some mm)
    (hsec : pyFloat (utc.drop 4) = some sec) :
    (gprmc s1).2.timestamp = ((hh + s1.local_offset) % 24, mm, sec)
    ∧ (gprmc s2).2.timestamp = ((hh + s2.local_offset) % 24, mm, sec)
    ∧ (s1.local_offset % 24 = s2.local_offset % 24 →
        (gprmc s1).2.timestamp = (gprmc s2).2.timestamp) := by
  have h1 := gprmc_timestamp s1 utc hh mm sec hs1 hutc hhh hmm2 hsec
  have h2 := gprmc_timestamp s2 utc hh mm sec hs2 hutc hhh hmm2 hsec
  refine ⟨h1, h2, ?_⟩
  intro hoff
  rw [h1, h2]
  have : (hh + s1.local_offset) % 24 = (hh + s2.local_offset) % 24 := by omega
  rw [this]

/-- Witness for C5 (amended), on a minimal parser state holding the RMC time
field `123519`. -/
theorem spec_c5_amended_witness :
    (gprmc { initState 3 with gps_segments := [cs "GPRMC", cs "123519"] }).2.timestamp
        = ((12 + 3) % 24, 35, ⟨19, 1⟩)
    ∧ (gprmc { initState 27 with gps_segments := [cs "GPRMC", cs "123519"] }).2.timestamp
        = ((12 + 27) % 24, 35, ⟨19, 1⟩)
    ∧ (gprmc { initState 3 with gps_segments := [cs "GPRMC", cs "123519"] }).2.timestamp
        = (gprmc { initState 27 with gps_segments := [cs "GPRMC", cs "123519"] }).2.timestamp := by
  obtain ⟨h1, h2, h3⟩ := spec_c5_amended
    { initState 3 with gps_segments := [cs "GPRMC", cs "123519"] }
    { initState 27 with gps_segments := [cs "GPRMC", cs "123519"] }
    (cs "123519") 12 35 ⟨19, 1⟩ (by decide) (by decide) (by decide)
    (by decide) (by decide) (by decide)
  exact ⟨h1, h2, h3 (by decide)⟩

/-- Counterexample to C5 as stated: the same well-formed RMC sentence fed to
two parsers constructed with offsets 0 and 5 leaves different timestamp
fields, and the offset-5 timestamp differs from the sentence's UTC time. -/
theorem spec_c5_counterexample :
    (runBytes (initState 0)
        (cs "$GPRMC,123519,A,4807.038,N,01131.000,E,022.4,084.4,230394,003.1,W*6A")).1.timestamp
      = (12, 35, ⟨19, 1⟩)
    ∧ (runBytes (initState 5)
        (cs "$GPRMC,123519,A,4807.038,N,01131.000,E,022.4,084.4,230394,003.1,W*6A")).1.timestamp
      = (17, 35, ⟨19, 1⟩)
    ∧ (runBytes (initState 0)
        (cs "$GPRMC,123519,A,4807.038,N,01131.000,E,022.4,084.4,230394,003.1,W*6A")).1.timestamp
      ≠ (runBytes (initState 5)
        (cs "$GPRMC,123519,A,4807.038,N,01131.000,E,022.4,084.4,230394,003.1,W*6A")).1.timestamp := by
  refine ⟨by decide, by decide, by decide⟩

/-- Claim C10: a checksum-valid RMC sentence whose time field parses but
whose date field is present and malformed returns no identifier and gains no
`parsed_sentences` credit, yet the timestamp written before the failure
stays written (no rollback); the sentence is still counted clean. -/
theorem spec_c10_partial_write (s : GPSState) (body : List Nat) (d1 d2 h1v h2v : Nat)
    (utc dstr : PStr) (hh mm : Int) (sec : PyFloat)
    (hb : ∀ c ∈ body, plainChar c) (hlen : body.length ≤ 88)
    (hd1 : hexDigit? d1 = some h1v) (hd2 : hexDigit? d2 = some h2v)
    (hcrc : h1v * 16 + h2v = xorOf body)
    (hid0 : (segsOf body)[0]? = some (cs "GPRMC"))
    (h1 : (segsOf body).get? 1 = some utc) (hutc : utc ≠ [])
    (hhh : pyInt (utc.take 2) = some hh)
    (hmm2 : pyInt ((utc.drop 2).take 2) = some mm)
    (hsec : pyFloat (utc.drop 4) = some sec)
    (h9 : (segsOf body).get? 9 = some dstr) (hdne : dstr ≠ [])
    (hfail : pyInt (dstr.take 2) = none ∨ pyInt ((dstr.drop 2).take 2) = none ∨
             pyInt ((dstr.drop 4).take 2) = none) :
    runBytes s (mkSentence body d1 d2)
      = ({ preDispatch s body d1 d2 with
            timestamp := ((hh + s.local_offset) % 24, mm, sec) },
         List.replicate (body.length + 4) none, none)
    ∧ ({ preDispatch s body d1 d2 with
          timestamp := ((hh + s.local_offset) % 24, mm, sec) } : GPSState).parsed_sentences
        = s.parsed_sentences
    ∧ ({ preDispatch s body d1 d2 with
          timestamp := ((hh + s.local_offset) % 24, mm, sec) } : GPSState).clean_sentences
        = s.clean_sentences + 1 := by
  have hx1 : (preDispatch s body d1 d2).gps_segments.get? 1 = some utc :=
    getq_append_left (segsOf body) [[d1, d2]] 1 utc h1
  have hx9 : (preDispatch s body d1 d2).gps_segments.get? 9 = some dstr :=
    getq_append_left (segsOf body) [[d1, d2]] 9 dstr h9
  have hdec : gprmc (preDispatch s body d1 d2)
      = (.ok false, { preDispatch s body d1 d2 with
                      timestamp := ((hh + s.local_offset) % 24, mm, sec) }) :=
    gprmc_halfway (preDispatch s body d1 d2) utc dstr hh mm sec hx1 hutc hhh hmm2 hsec
      hx9 hdne hfail
  have hid0' : (preDispatch s body d1 d2).gps_segments[0]? = some (cs "GPRMC") :=
    get0_append' body [d1, d2] _ hid0
  have hdisp := dispatchValid_ok_false (preDispatch s body d1 d2) (cs "GPRMC") gprmc
    ({ preDispatch s body d1 d2 with
       timestamp := ((hh + s.local_offset) % 24, mm, sec) }) hid0' rfl hdec rfl
  have hd2step := update_d2_valid s body d1 d2 h1v h2v hd1 hd2 hcrc
  have h3 : runBytes (bodyState s body) [42, d1, d2]
      = ({ preDispatch s body d1 d2 with
            timestamp := ((hh + s.local_offset) % 24, mm, sec) },
         [none, none, none], none) := by
    simp [runBytes, update_star, update_d1 s body d1 (by simp [hd1]) (by omega), hd2step, hdisp]
  have h2 : runBytes (bodyState s []) (body ++ [42, d1, d2])
      = ({ preDispatch s body d1 d2 with
            timestamp := ((hh + s.local_offset) % 24, mm, sec) },
         List.replicate body.length none ++ [none, none, none], none) := by
    rw [runBytes_append, run_body s body hb (by omega)]
    simp [h3]
  refine ⟨?_, ?_, ?_⟩
  · rw [show mkSentence body d1 d2 = 36 :: (body ++ [42, d1, d2]) from rfl, run_start, h2]
    simp [cons_replicate_comm, List.replicate_add,
          show List.replicate 4 (none : Option PStr) = [none, none, none, none] from rfl]
  · simp [preDispatch, afterD1, afterStar, bodyState, newSentence]
  · simp [preDispatch, afterD1, afterStar, bodyState, newSentence]

/-- Witness for C10: the sentence `$GPRMC,123519,V,,,,,,,xx*3C` has a valid
checksum, a well-formed time field, and a malformed date field; the
timestamp keeps its newly written value while nothing is returned. -/
theorem spec_c10_witness :
    (runBytes (initState 0) (mkSentence (cs "GPRMC,123519,V,,,,,,,xx") 51 67)).1.timestamp
        = (12, 35, ⟨19, 1⟩)
    ∧ (runBytes (initState 0) (mkSentence (cs "GPRMC,123519,V,,,,,,,xx") 51 67)).1.parsed_sentences
        = 0
    ∧ (runBytes (initState 0) (mkSentence (cs "GPRMC,123519,V,,,,,,,xx") 51 67)).1.clean_sentences
        = 1
    ∧ (runBytes (initState 0) (mkSentence (cs "GPRMC,123519,V,,,,,,,xx") 51 67)).2.1
        = List.replicate 27 (none : Option PStr) := by
  obtain ⟨hrun, hp, hc⟩ := spec_c10_partial_write (initState 0)
    (cs "GPRMC,123519,V,,,,,,,xx") 51 67 3 12 (cs "123519") (cs "xx") 12 35 ⟨19, 1⟩
    (by decide) (by decide) (by decide) (by decide) (by decide) (by decide)
    (by decide) (by decide) (by decide) (by decide) (by decide) (by decide)
    (by decide) (Or.inl (by decide))
  refine ⟨?_, ?_, ?_, ?_⟩ <;> rw [hrun] <;> decide

/-- Claim C8: Maidenhead and UTM accessors return their fixed placeholder
before any fix, a second consecutive read returns the identical stored
string with the state unchanged (the cache branch is taken, for every
interpretation of the trigonometric primitives), and after any read with a
fix the returned string is exactly the stored cache. -/
theorem spec_c8_caching (T : TrigModel) (r : ReaderState) :
    (r.has_ever_had_fix = false →
      maidenhead r = ("------", r) ∧ utm T r = ("-- --E --N", r))
    ∧ maidenhead (maidenhead r).2 = ((maidenhead r).1, (maidenhead r).2)
    ∧ utm T (utm T r).2 = ((utm T r).1, (utm T r).2)
    ∧ (r.has_ever_had_fix = true →
        (maidenhead r).1 = (maidenhead r).2.cached_mh
        ∧ (utm T r).1 = (utm T r).2.cached_utm) := by
  obtain ⟨m1, m2, m3⟩ := maidenhead_spec r
  obtain ⟨u1, u2, u3⟩ := utm_spec T r
  exact ⟨fun h => ⟨m3 h, u3 h⟩, m1, u1, fun h => ⟨m2 h, u2 h⟩⟩

/-- Witness for C8 on a fresh reader (placeholders) and on a reader with a
fix (cache-hit idempotence), with a concrete trigonometric model. -/
theorem spec_c8_witness :
    maidenhead initReader = ("------", initReader)
    ∧ utm T0 initReader = ("-- --E --N", initReader)
    ∧ (maidenhead c8Reader).1 = (maidenhead c8Reader).2.cached_mh
    ∧ maidenhead (maidenhead c8Reader).2 = ((maidenhead c8Reader).1, (maidenhead c8Reader).2)
    ∧ utm T0 (utm T0 c8Reader).2 = ((utm T0 c8Reader).1, (utm T0 c8Reader).2) := by
  obtain ⟨p1, -, -, -⟩ := spec_c8_caching T0 initReader
  obtain ⟨-, q2, q3, q4⟩ := spec_c8_caching T0 c8Reader
  obtain ⟨w1, w2⟩ := p1 rfl
  exact ⟨w1, w2, (q4 rfl).1, q2, q3⟩

/-- Claim C6 (amended): in every state reachable by feeding any byte
sequence from any initial state, both hemisphere letters lie in the
combined set N, S, E, W that the code checks against; the code does not
separate the latitude pair from the longitude pair. -/
theorem spec_c6_amended (off : Int) (bs : List Nat) :
    HemiInv (runBytes (initState off) bs).1 := by
  apply runBytes_hemi
  constructor <;> simp [initState, HEMISPHERES]

/-- Counterexample to C6 as stated: a checksum-valid RMC sentence carrying
`E` as the latitude hemisphere and `N` as the longitude hemisphere is
accepted, so latitude can carry `E` and longitude can carry `N`. -/
theorem spec_c6_counterexample :
    (runBytes (initState 0)
      (cs "$GPRMC,123519,A,4807.038,E,01131.000,N,022.4,084.4,230394,003.1,W*6A")).1.latitude.2.2
      = cs "E"
    ∧ (runBytes (initState 0)
      (cs "$GPRMC,123519,A,4807.038,E,01131.000,N,022.4,084.4,230394,003.1,W*6A")).1.longitude.2.2
      = cs "N"
    ∧ (runBytes (initState 0)
      (cs "$GPRMC,123519,A,4807.038,E,01131.000,N,022.4,084.4,230394,003.1,W*6A")).1.valid
      = true := by
  refine ⟨by decide, by decide, by decide⟩

/-- Claim C9 (amended): a byte outside the printable range [10,126] is
dropped with no state change at all — the character counter included. -/
theorem spec_c9_amended (s : GPSState) (c : Nat) (h : ¬ (10 ≤ c ∧ c ≤ 126)) :
    update s c = (.ok none, s) := by
  unfold update
  rw [if_neg h]

/-- Witness for C9 (amended) at byte value 200. -/
theorem spec_c9_witness : update (initState 0) 200 = (.ok none, initState 0) :=
  spec_c9_amended (initState 0) 200 (by decide)

/-- Counterexample to C9 as stated: bytes outside [10,126] do not increment
the sentence-length counter (`char_count` stays 0 instead of becoming 1). -/
theorem spec_c9_counterexample :
    (update (initState 0) 200).2.char_count = 0
    ∧ (update (initState 0) 7).2.char_count = 0
    ∧ (initState 0).char_count = 0 := by
  refine ⟨by decide, by decide, by decide⟩

/-- Claim C1 (amended): the segment-buffer invariant holds initially and is
preserved by every byte, and under it `update` returns an identifier or
nothing for every byte that does not complete a checksum-valid sentence
dispatched to a recognized decoder — the decoder dispatch is the only code
path that can surface an exception (an `IndexError`). -/
theorem spec_c1_amended :
    (∀ off : Int, SegInv (initState off))
    ∧ (∀ (s : GPSState) (c : Nat), SegInv s → SegInv (update s c).2)
    ∧ (∀ (s : GPSState) (c : Nat), SegInv s → dispatchesDecoder s c = false →
        ∃ o, (update s c).1 = .ok o) := by
  refine ⟨?_, fun s c h => update_seginv s c h, fun s c h hnd => update_ok_of_no_dispatch s c h hnd⟩
  intro off hx
  simp [initState] at hx

/-- Witness for C1 (amended) at the initial state and byte `A`. -/
theorem spec_c1_witness :
    SegInv (initState 0) ∧ dispatchesDecoder (initState 0) 65 = false
    ∧ ∃ o, (update (initState 0) 65).1 = .ok o := by
  refine ⟨by decide, by decide, spec_c1_amended.2.2 (initState 0) 65 (by decide) (by decide)⟩

/-- Counterexample to C1 as stated: the checksum-valid RMC sentence
`$GPRMC,123519*6A` has fewer comma-separated fields than the decoder reads,
and feeding it surfaces an uncaught IndexError to the byte-feed caller. -/
theorem spec_c1_counterexample :
    (runBytes (initState 0) (cs "$GPRMC,123519*6A")).2.2 = some PyErr.indexError := by
  decide

/-- Claim C4 (amended): an identifier is recognized exactly when it is one
of the seventeen keys of the sentence table (GPRMC, GLRMC, GNRMC, GPGGA,
GLGGA, GNGGA, GPVTG, GLVTG, GNVTG, GPGSA, GLGSA, GNGSA, GPGSV, GLGSV,
GPGLL, GLGLL, GNGLL); a checksum-valid sentence with an unrecognized
identifier counts as clean but yields no identifier, leaves the statistics
and data fields unchanged apart from the clean counter, and raises nothing. -/
theorem spec_c4_amended :
    (∀ id0 : PStr, (supportedLookup id0).isSome ↔ id0 ∈ supportedIds)
    ∧ (∀ (s : GPSState) (body : List Nat) (d1 d2 h1v h2v : Nat) (id0 : PStr),
        (∀ c ∈ body, plainChar c) → body.length ≤ 88 →
        hexDigit? d1 = some h1v → hexDigit? d2 = some h2v →
        h1v * 16 + h2v = xorOf body →
        (segsOf body)[0]? = some id0 →
        supportedLookup id0 = none →
        runBytes s (mkSentence body d1 d2)
            = (preDispatch s body d1 d2, List.replicate (body.length + 4) none, none)
          ∧ (preDispatch s body d1 d2).clean_sentences = s.clean_sentences + 1
          ∧ (preDispatch s body d1 d2).parsed_sentences = s.parsed_sentences
          ∧ (preDispatch s body d1 d2).crc_fails = s.crc_fails
          ∧ (preDispatch s body d1 d2).timestamp = s.timestamp
          ∧ (preDispatch s body d1 d2).date = s.date
          ∧ (preDispatch s body d1 d2).latitude = s.latitude
          ∧ (preDispatch s body d1 d2).longitude = s.longitude
          ∧ (preDispatch s body d1 d2).valid = s.valid
          ∧ (preDispatch s body d1 d2).fix_type = s.fix_type
          ∧ (preDispatch s body d1 d2).satellites_in_view = s.satellites_in_view
          ∧ (preDispatch s body d1 d2).satellites_in_use = s.satellites_in_use) := by
  constructor
  · intro id0
    rw [show supportedLookup id0 = supported_sentences.lookup id0 from rfl,
        lookup_isSome_keys]
    exact Iff.rfl
  · intro s body d1 d2 h1v h2v id0 hb hlen hd1 hd2 hcrc hid0 hlook
    exact run_unknown_identifier s body d1 d2 h1v h2v id0 hb hlen hd1 hd2 hcrc hid0 hlook

/-- Witness for C4 (amended): the checksum-valid sentence `$GPZZZ*4D` has
an unrecognized identifier; it becomes a clean sentence that parses no
data and yields no identifier. -/
theorem spec_c4_witness :
    ((supportedLookup (cs "GPGSV")).isSome ↔ cs "GPGSV" ∈ supportedIds)
    ∧ (runBytes (initState 0) (mkSentence (cs "GPZZZ") 52 68)).1.clean_sentences = 1
    ∧ (runBytes (initState 0) (mkSentence (cs "GPZZZ") 52 68)).1.parsed_sentences = 0
    ∧ (runBytes (initState 0) (mkSentence (cs "GPZZZ") 52 68)).2.1
        = List.replicate 9 (none : Option PStr)
    ∧ (runBytes (initState 0) (mkSentence (cs "GPZZZ") 52 68)).2.2 = none := by
  obtain ⟨hrun, hclean, hparsed, -⟩ :=
    spec_c4_amended.2 (initState 0) (cs "GPZZZ") 52 68 4 13 (cs "GPZZZ")
      (by decide) (by decide) (by decide) (by decide) (by decide) (by decide) rfl
  exact ⟨spec_c4_amended.1 (cs "GPGSV"),
    by rw [hrun]; try decide, by rw [hrun]; try decide, by rw [hrun]; try decide, by rw [hrun]; try decide⟩

/-- Counterexample to C4 as stated: the table holds seventeen identifiers,
not twelve — VTG and GLL talkers such as `GPVTG` are recognized (a
checksum-valid VTG sentence yields its identifier), while the claimed
`GNGSV` is not in the table. -/
theorem spec_c4_counterexample :
    (supportedLookup (cs "GPVTG")).isSome = true
    ∧ (supportedLookup (cs "GNGSV")).isSome = false
    ∧ supportedIds.length = 17
    ∧ (runBytes (initState 0) (cs "$GPVTG,054.7,T,034.4,M,005.5,N,010.2,K*48")).2.1
        = List.replicate 40 (none : Option PStr) ++ [some (cs "GPVTG")] := by
  refine ⟨rfl, rfl, rfl, by decide⟩

/-- Witness for C2 on the reference RMC sentence
`$GPRMC,123519,A,4807.038,N,01131.000,E,022.4,084.4,230394,003.1,W*6A`. -/
theorem spec_c2_witness :
    (runBytes (initState 0)
      (mkSentence (cs "GPRMC,123519,A,4807.038,N,01131.000,E,022.4,084.4,230394,003.1,W") 54 65)).2.1
      = List.replicate 67 (none : Option PStr) ++ [some (cs "GPRMC")]
    ∧ (runBytes (initState 0)
      (mkSentence (cs "GPRMC,123519,A,4807.038,N,01131.000,E,022.4,084.4,230394,003.1,W") 54 65)).1.clean_sentences = 1
    ∧ (runBytes (initState 0)
      (mkSentence (cs "GPRMC,123519,A,4807.038,N,01131.000,E,022.4,084.4,230394,003.1,W") 54 65)).1.parsed_sentences = 1
    ∧ (runBytes (initState 0)
      (mkSentence (cs "GPRMC,123519,A,4807.038,N,01131.000,E,022.4,084.4,230394,003.1,W") 54 65)).2.2 = none := by
  have hone : (gprmc (preDispatch (initState 0)
      (cs "GPRMC,123519,A,4807.038,N,01131.000,E,022.4,084.4,230394,003.1,W") 54 65)).1
      = Except.ok true := by rfl
  have hdec : gprmc (preDispatch (initState 0)
      (cs "GPRMC,123519,A,4807.038,N,01131.000,E,022.4,084.4,230394,003.1,W") 54 65)
      = (Except.ok true, (gprmc (preDispatch (initState 0)
          (cs "GPRMC,123519,A,4807.038,N,01131.000,E,022.4,084.4,230394,003.1,W") 54 65)).2) := by
    rw [← hone]
  obtain ⟨hrun, hclean, hparsed⟩ :=
    spec_c2_wellformed_sentence (initState 0)
      (cs "GPRMC,123519,A,4807.038,N,01131.000,E,022.4,084.4,230394,003.1,W") 54 65 6 10
      (cs "GPRMC") gprmc _
      (by decide) (by decide) (by decide) (by decide) (by decide) (by decide) rfl hdec
  refine ⟨?_, ?_, ?_, ?_⟩ <;> rw [hrun] <;> try decide

/-- Witness for C3 on the reference RMC sentence with its checksum digits
altered to the valid-hex but wrong pair `6B`. -/
theorem spec_c3_witness :
    (runBytes (initState 0)
      (mkSentence (cs "GPRMC,123519,A,4807.038,N,01131.000,E,022.4,084.4,230394,003.1,W") 54 66)).2.1
      = List.replicate 68 (none : Option PStr)
    ∧ (runBytes (initState 0)
      (mkSentence (cs "GPRMC,123519,A,4807.038,N,01131.000,E,022.4,084.4,230394,003.1,W") 54 66)).2.2 = none
    ∧ (runBytes (initState 0)
      (mkSentence (cs "GPRMC,123519,A,4807.038,N,01131.000,E,022.4,084.4,230394,003.1,W") 54 66)).1.crc_fails = 1
    ∧ (runBytes (initState 0)
      (mkSentence (cs "GPRMC,123519,A,4807.038,N,01131.000,E,022.4,084.4,230394,003.1,W") 54 66)).1.clean_sentences = 0
    ∧ (runBytes (initState 0)
      (mkSentence (cs "GPRMC,123519,A,4807.038,N,01131.000,E,022.4,084.4,230394,003.1,W") 54 66)).1.parsed_sentences = 0 := by
  obtain ⟨hrun, hcrc, -⟩ :=
    spec_c3_checksum_mismatch (initState 0)
      (cs "GPRMC,123519,A,4807.038,N,01131.000,E,022.4,084.4,230394,003.1,W") 54 66 6 11
      (by decide) (by decide) (by decide) (by decide) (by decide)
  refine ⟨?_, ?_, ?_, ?_, ?_⟩ <;> rw [hrun] <;> try decide
